import Mathlib

/-!
# Shell commands of the INS board firmware (`src/shell_cmds.c`)

A shallow embedding of the two commands of `shell_cmds.c` that carry logic:

* `cmd_barometer`: the MS5611 sampling session over the I2C bus;
* `cmd_parameter_set`: the typed write into the parameter store.

The collaborators that the file only calls (the ChibiOS I2C driver, the MS5611
driver, the parameter library, `strtof`, the thread sleep) are parameters of the
model.  `cmd_barometer` is a transition of the state of its collaborators: each
call is made on the state the call before left.  Its trace is the log of the
calls that the collaborators receive, with the arguments received and the
results returned, when they are wrapped in a recorder; the theorems about
`cmd_barometer` are statements about this log and about the state left.
-/

set_option maxRecDepth 100000

namespace ShellCmds

/-! ## Events of `cmd_barometer` -/

/-- Field `op_mode` of an `I2CConfig`. -/
inductive I2COpMode where
  | OPMODE_I2C
  | OPMODE_SMBUS_DEVICE
  | OPMODE_SMBUS_HOST
  deriving DecidableEq, Repr

/-- Field `duty_cycle` of an `I2CConfig`. -/
inductive I2CDutyCycle where
  | STD_DUTY_CYCLE
  | FAST_DUTY_CYCLE_2
  | FAST_DUTY_CYCLE_16_9
  deriving DecidableEq, Repr

/-- The ChibiOS `I2CConfig` structure. -/
structure I2CConfig where
  op_mode : I2COpMode
  clock_speed : Nat
  duty_cycle : I2CDutyCycle
  deriving DecidableEq, Repr

/-- The constant `i2c_cfg` of `shell_cmds.c` (lines 134-138). -/
def i2c_cfg : I2CConfig :=
  { op_mode := I2COpMode.OPMODE_I2C
    clock_speed := 400000
    duty_cycle := I2CDutyCycle.FAST_DUTY_CYCLE_2 }

/-- Channel argument of `ms5611_adc_start`. -/
inductive AdcSrc where
  | MS5611_ADC_TEMP
  | MS5611_ADC_PRESS
  deriving DecidableEq, Repr

/-- Oversampling argument of `ms5611_adc_start`; the command only uses
`MS5611_OSR_4096`. -/
inductive Osr where
  | MS5611_OSR_4096
  deriving DecidableEq, Repr

/-- One call received by a collaborator of `cmd_barometer`, with its arguments
and, where the call returns something, the value returned. -/
inductive Event where
  /-- Call `i2cStart(driver, cfg)`; `configured` tells whether the transport came
  up, which the command does not read (the call is a plain statement). -/
  | i2cStart (cfg : I2CConfig) (configured : Bool)
  | i2cAcquireBus
  | i2cReleaseBus
  | i2cStop
  /-- Call `i2cGetErrors(driver)` and the flags it returned. -/
  | i2cGetErrors (flags : Nat)
  /-- Call `chprintf(chp, fmt, args...)`. -/
  | chprintf (fmt : String) (args : List Int)
  | chThdSleepMilliseconds (ms : Int)
  /-- Call `ms5611_i2c_init(&barometer, driver, mode)` and its result code. -/
  | ms5611_i2c_init (mode : Int) (ret : Int)
  /-- Call `ms5611_adc_start(&barometer, src, osr)` and the wait it returned. -/
  | ms5611_adc_start (src : AdcSrc) (osr : Osr) (ret : Int)
  /-- Call `ms5611_adc_read(&barometer, &raw)` and the sample stored in `raw`. -/
  | ms5611_adc_read (raw : Nat)
  /-- Call `ms5611_calc_press(&barometer, raw_p, raw_t, &temp)`, the pressure it
  returned and the temperature it stored in `temp`. -/
  | ms5611_calc_press (raw_p raw_t : Nat) (press : Nat) (temp : Int)
  deriving DecidableEq, Repr

/-- The collaborators of `cmd_barometer`, as transition functions on a state
`σ` of everything outside the command (bus driver, sensor, clock, output
stream).  Every call takes the state and gives the next one; results of the C
functions are returned next to the new state. -/
structure Hw (σ : Type) where
  /-- Call `i2cStart`; the boolean tells whether the transport is configured
  afterwards. -/
  i2cStart : σ → I2CConfig → Bool × σ
  i2cAcquireBus : σ → σ
  i2cReleaseBus : σ → σ
  i2cStop : σ → σ
  /-- Value returned by `i2cGetErrors` (an `i2cflags_t`, 32 bits unsigned). -/
  i2cGetErrors : σ → Nat × σ
  chprintf : σ → String → List Int → σ
  chThdSleepMilliseconds : σ → Int → σ
  /-- Result of `ms5611_i2c_init` (an `int`). -/
  ms5611_i2c_init : σ → Int → Int × σ
  /-- Result of `ms5611_adc_start` (an `int16_t`). -/
  ms5611_adc_start : σ → AdcSrc → Osr → Int × σ
  /-- Sample stored by `ms5611_adc_read` (a `uint32_t`). -/
  ms5611_adc_read : σ → Nat × σ
  /-- Pressure returned (`uint32_t`) and temperature stored (`int32_t`) by
  `ms5611_calc_press`. -/
  ms5611_calc_press : σ → Nat → Nat → (Nat × Int) × σ

/-! ## `cmd_barometer` -/

/-- The argument of the sleeps at lines 178 and 187, `(t - 1)/1000 + 1`; the
division of C truncates towards zero. -/
def waitMs (t : Int) : Int :=
  Int.tdiv (t - 1) 1000 + 1

/-- The cast `(uint32_t)flags` at line 157. -/
def toUint32 (v : Int) : Int :=
  v % 4294967296

/-- One pass through the body of the `while` loop (lines 169-195), as a
transition of the outside state: every call is made on the state the previous
call left.  A `continue` ends the pass. -/
def barometerBody {σ : Type} (hw : Hw σ) (s0 : σ) : σ :=
  let r1 := hw.ms5611_adc_start s0 AdcSrc.MS5611_ADC_TEMP Osr.MS5611_OSR_4096
  let t := r1.1
  if t < 0 then
    r1.2
  else
    let s2 := hw.chThdSleepMilliseconds r1.2 (waitMs t)
    let r3 := hw.ms5611_adc_read s2
    let raw_t := r3.1
    let r4 := hw.ms5611_adc_start r3.2 AdcSrc.MS5611_ADC_PRESS Osr.MS5611_OSR_4096
    let t2 := r4.1
    if t2 < 0 then
      r4.2
    else
      let s5 := hw.chThdSleepMilliseconds r4.2 (waitMs t2)
      let r6 := hw.ms5611_adc_read s5
      let raw_p := r6.1
      let r7 := hw.ms5611_calc_press r6.2 raw_p raw_t
      let press := r7.1.1
      let temp := r7.1.2
      let s8 := hw.chprintf r7.2 "pressure: %u, temperature: %u\r\n" [(press : Int), temp]
      hw.chThdSleepMilliseconds s8 100

/-- The loop `while (i-- > 0) body` (line 168) entered with counter `i`: the
counter is tested, decremented, and the body runs once per positive value. -/
def barometerLoop {σ : Type} (hw : Hw σ) : Nat → σ → σ
  | 0, s => s
  | i + 1, s => barometerLoop hw i (barometerBody hw s)

/-- The command `cmd_barometer` (lines 140-200), as a transition of the
outside state. -/
def cmd_barometer {σ : Type} (hw : Hw σ) (s0 : σ) : σ :=
  let r1 := hw.i2cStart s0 i2c_cfg
  let s2 := hw.i2cAcquireBus r1.2
  let s3 := hw.chprintf s2 "ms5611 init\r\n" []
  let r4 := hw.ms5611_i2c_init s3 0
  let init := r4.1
  if init ≠ 0 then
    let r5 := hw.i2cGetErrors r4.2
    let flags := r5.1
    let s6 := hw.chprintf r5.2 "ms5611 init failed: %d, %u\r\n" [init, toUint32 flags]
    let s7 := hw.i2cReleaseBus s6
    hw.i2cStop s7
  else
    let s5 := hw.chprintf r4.2 "ms5611 init succeeded\r\n" []
    let s6 := hw.chThdSleepMilliseconds s5 100
    let s7 := barometerLoop hw 50 s6
    let s8 := hw.i2cReleaseBus s7
    hw.i2cStop s8

/-! ## The trace of a run -/

/-- The collaborators `hw` with a log: every call is passed on to `hw` on its
own state and appended to the log, with the arguments received and the result
`hw` returned. -/
def recorder {σ : Type} (hw : Hw σ) : Hw (σ × List Event) :=
  { i2cStart := fun s cfg =>
      ((hw.i2cStart s.1 cfg).1,
       ((hw.i2cStart s.1 cfg).2, s.2 ++ [Event.i2cStart cfg (hw.i2cStart s.1 cfg).1]))
    i2cAcquireBus := fun s => (hw.i2cAcquireBus s.1, s.2 ++ [Event.i2cAcquireBus])
    i2cReleaseBus := fun s => (hw.i2cReleaseBus s.1, s.2 ++ [Event.i2cReleaseBus])
    i2cStop := fun s => (hw.i2cStop s.1, s.2 ++ [Event.i2cStop])
    i2cGetErrors := fun s =>
      ((hw.i2cGetErrors s.1).1,
       ((hw.i2cGetErrors s.1).2, s.2 ++ [Event.i2cGetErrors (hw.i2cGetErrors s.1).1]))
    chprintf := fun s fmt args => (hw.chprintf s.1 fmt args, s.2 ++ [Event.chprintf fmt args])
    chThdSleepMilliseconds := fun s ms =>
      (hw.chThdSleepMilliseconds s.1 ms, s.2 ++ [Event.chThdSleepMilliseconds ms])
    ms5611_i2c_init := fun s mode =>
      ((hw.ms5611_i2c_init s.1 mode).1,
       ((hw.ms5611_i2c_init s.1 mode).2,
        s.2 ++ [Event.ms5611_i2c_init mode (hw.ms5611_i2c_init s.1 mode).1]))
    ms5611_adc_start := fun s src osr =>
      ((hw.ms5611_adc_start s.1 src osr).1,
       ((hw.ms5611_adc_start s.1 src osr).2,
        s.2 ++ [Event.ms5611_adc_start src osr (hw.ms5611_adc_start s.1 src osr).1]))
    ms5611_adc_read := fun s =>
      ((hw.ms5611_adc_read s.1).1,
       ((hw.ms5611_adc_read s.1).2, s.2 ++ [Event.ms5611_adc_read (hw.ms5611_adc_read s.1).1]))
    ms5611_calc_press := fun s raw_p raw_t =>
      ((hw.ms5611_calc_press s.1 raw_p raw_t).1,
       ((hw.ms5611_calc_press s.1 raw_p raw_t).2,
        s.2 ++ [Event.ms5611_calc_press raw_p raw_t (hw.ms5611_calc_press s.1 raw_p raw_t).1.1
          (hw.ms5611_calc_press s.1 raw_p raw_t).1.2])) }

/-- The trace of `cmd_barometer`: the calls the collaborators receive, in the
order received, when the command runs on `hw` from state `s`. -/
def cmd_barometer_trace {σ : Type} (hw : Hw σ) (s : σ) : List Event :=
  (cmd_barometer (recorder hw) (s, [])).2

/-- The result of the device probe of a run from state `s`: the code returned
by `ms5611_i2c_init` and the state it leaves. -/
def probe {σ : Type} (hw : Hw σ) (s : σ) : Int × σ :=
  hw.ms5611_i2c_init
    (hw.chprintf (hw.i2cAcquireBus (hw.i2cStart s i2c_cfg).2) "ms5611 init\r\n" []) 0

/-- The state in which the sampling loop is entered when the probe of a run
from `s` succeeded. -/
def samplingStart {σ : Type} (hw : Hw σ) (s : σ) : σ :=
  hw.chThdSleepMilliseconds (hw.chprintf (probe hw s).2 "ms5611 init succeeded\r\n" []) 100

/-- The states in which the first `n` passes through the loop body start,
when the loop is entered in state `s`. -/
def passStates {σ : Type} (hw : Hw σ) : Nat → σ → List σ
  | 0, _ => []
  | n + 1, s => s :: passStates hw n (barometerBody hw s)

/-- The calls a pass through the loop body is to make when it starts in state
`s0`, with the results `hw` gives: a temperature phase (request, sleep, read),
then a pressure phase, then the computation and the reading line; the pass
stops at the first request that returns a negative wait. -/
def passEvents {σ : Type} (hw : Hw σ) (s0 : σ) : List Event :=
  let r1 := hw.ms5611_adc_start s0 AdcSrc.MS5611_ADC_TEMP Osr.MS5611_OSR_4096
  if r1.1 < 0 then
    [Event.ms5611_adc_start AdcSrc.MS5611_ADC_TEMP Osr.MS5611_OSR_4096 r1.1]
  else
    let r3 := hw.ms5611_adc_read (hw.chThdSleepMilliseconds r1.2 (waitMs r1.1))
    let r4 := hw.ms5611_adc_start r3.2 AdcSrc.MS5611_ADC_PRESS Osr.MS5611_OSR_4096
    if r4.1 < 0 then
      [Event.ms5611_adc_start AdcSrc.MS5611_ADC_TEMP Osr.MS5611_OSR_4096 r1.1,
       Event.chThdSleepMilliseconds (waitMs r1.1),
       Event.ms5611_adc_read r3.1,
       Event.ms5611_adc_start AdcSrc.MS5611_ADC_PRESS Osr.MS5611_OSR_4096 r4.1]
    else
      let r6 := hw.ms5611_adc_read (hw.chThdSleepMilliseconds r4.2 (waitMs r4.1))
      let r7 := hw.ms5611_calc_press r6.2 r6.1 r3.1
      [Event.ms5611_adc_start AdcSrc.MS5611_ADC_TEMP Osr.MS5611_OSR_4096 r1.1,
       Event.chThdSleepMilliseconds (waitMs r1.1),
       Event.ms5611_adc_read r3.1,
       Event.ms5611_adc_start AdcSrc.MS5611_ADC_PRESS Osr.MS5611_OSR_4096 r4.1,
       Event.chThdSleepMilliseconds (waitMs r4.1),
       Event.ms5611_adc_read r6.1,
       Event.ms5611_calc_press r6.1 r3.1 r7.1.1 r7.1.2,
       Event.chprintf "pressure: %u, temperature: %u\r\n" [(r7.1.1 : Int), r7.1.2],
       Event.chThdSleepMilliseconds 100]

/-- The reading a pass is to emit when it starts in state `s0`: none when the
temperature request or the pressure request returns a negative wait, else
`ms5611_calc_press(raw_p, raw_t)` on the two samples read back in the pass. -/
def passReading {σ : Type} (hw : Hw σ) (s0 : σ) : Option (Int × Int) :=
  let r1 := hw.ms5611_adc_start s0 AdcSrc.MS5611_ADC_TEMP Osr.MS5611_OSR_4096
  if r1.1 < 0 then none
  else
    let r3 := hw.ms5611_adc_read (hw.chThdSleepMilliseconds r1.2 (waitMs r1.1))
    let r4 := hw.ms5611_adc_start r3.2 AdcSrc.MS5611_ADC_PRESS Osr.MS5611_OSR_4096
    if r4.1 < 0 then none
    else
      let r6 := hw.ms5611_adc_read (hw.chThdSleepMilliseconds r4.2 (waitMs r4.1))
      let r7 := hw.ms5611_calc_press r6.2 r6.1 r3.1
      some ((r7.1.1 : Int), r7.1.2)

/-! ## Output text -/

/-- The cast to `int32_t`: the value of a 32-bit pattern read as a signed
integer. -/
def toInt32 (v : Int) : Int :=
  (v + 2147483648) % 4294967296 - 2147483648

/-- Conversion `%u` of `chprintf`: the 32-bit argument printed as an unsigned
decimal number. -/
def fmtU (v : Int) : String :=
  toString (toUint32 v).toNat

/-- Conversion `%d` of `chprintf`: the 32-bit argument printed as a signed
decimal number. -/
def fmtD (v : Int) : String :=
  toString (toInt32 v)

/-- The characters `chprintf` writes for a format and its arguments, for the
two conversions `shell_cmds.c` uses with integers (`%u` and `%d`); every other
character is copied. -/
def chprintfChars : List Char → List Int → List Char
  | '%' :: 'u' :: fmt, a :: args => (fmtU a).toList ++ chprintfChars fmt args
  | '%' :: 'd' :: fmt, a :: args => (fmtD a).toList ++ chprintfChars fmt args
  | c :: fmt, args => c :: chprintfChars fmt args
  | [], _ => []

/-- The text `chprintf(chp, fmt, args...)` writes. -/
def chprintfText (fmt : String) (args : List Int) : String :=
  String.mk (chprintfChars fmt.toList args)

/-- The lines a trace writes to the shell stream, in order. -/
def output : List Event → List String
  | [] => []
  | Event.chprintf fmt args :: l => chprintfText fmt args :: output l
  | _ :: l => output l

/-- The reading an event emits: the two arguments of a `chprintf` call with
the reading format. -/
def Event.reading : Event → Option (Int × Int)
  | Event.chprintf fmt [press, temp] =>
    if fmt = "pressure: %u, temperature: %u\r\n" then some (press, temp) else none
  | _ => none

/-- The readings a trace emits, in order. -/
def readings (l : List Event) : List (Int × Int) :=
  l.filterMap Event.reading

/-- The calls that talk to the sensor over the bus. -/
def Event.isDeviceTransaction : Event → Bool
  | Event.ms5611_i2c_init _ _ => true
  | Event.ms5611_adc_start _ _ _ => true
  | Event.ms5611_adc_read _ => true
  | _ => false

/-- The calls a pass through the loop body can make. -/
def Event.isSampling : Event → Bool
  | Event.ms5611_adc_start _ _ _ => true
  | Event.ms5611_adc_read _ => true
  | Event.ms5611_calc_press _ _ _ _ => true
  | Event.chThdSleepMilliseconds _ => true
  | Event.chprintf fmt _ => fmt = "pressure: %u, temperature: %u\r\n"
  | _ => false

/-! ## `cmd_parameter_set` -/

/-- An entry of the parameter store (`parameter_t`): its type tag and its
scalar value. -/
structure parameter_t (F : Type) where
  type : Int
  value : F

/-- One call made by `cmd_parameter_set`. `Ref` is the type of pointers to
entries, `F` the type of `float` values. -/
inductive ParamEvent (Ref F : Type) where
  | chprintf (fmt : String) (args : List Int)
  /-- Call `parameter_find(&parameters, id)` and the pointer returned (`none`
  for `NULL`). -/
  | parameter_find (id : String) (ret : Option Ref)
  | parameter_scalar_set (p : Ref) (value : F)
  deriving DecidableEq

/-- What `cmd_parameter_set` uses from the parameter library and from libc. -/
structure ParamLib (Ref F : Type) where
  /-- Lookup `parameter_find` in the store `parameters`. -/
  parameter_find : (Ref → parameter_t F) → String → Option Ref
  /-- Parse `strtof(text, NULL)`. -/
  strtof : String → F
  /-- The constant `_PARAM_TYPE_SCALAR`. -/
  PARAM_TYPE_SCALAR : Int

/-- Modelled from the spec: `parameter_scalar_set`, of the parameter library,
whose source is not in `shell_cmds.c`; it "overwrites the entry's value in
place" and touches no other entry. -/
def parameter_scalar_set {Ref F : Type} [DecidableEq Ref]
    (store : Ref → parameter_t F) (p : Ref) (value : F) : Ref → parameter_t F :=
  fun q => if q = p then { type := (store p).type, value := value } else store q

/-- The command `cmd_parameter_set` (lines 101-116): the trace of its calls
and the store it leaves.  `argc` is the length of `argv`. -/
def cmd_parameter_set {Ref F : Type} [DecidableEq Ref] (lib : ParamLib Ref F)
    (parameters : Ref → parameter_t F) (argv : List String) :
    List (ParamEvent Ref F) × (Ref → parameter_t F) :=
  if h : argv.length < 2 then
    ([ParamEvent.chprintf "usage: parameter_set name value\n" []], parameters)
  else
    let p := lib.parameter_find parameters argv[0]
    match p with
    | none =>
      ([ParamEvent.parameter_find argv[0] none,
        ParamEvent.chprintf "parameter doesn't exist\n" []], parameters)
    | some e =>
      if (parameters e).type = lib.PARAM_TYPE_SCALAR then
        ([ParamEvent.parameter_find argv[0] (some e),
          ParamEvent.parameter_scalar_set e (lib.strtof argv[1])],
         parameter_scalar_set parameters e (lib.strtof argv[1]))
      else
        ([ParamEvent.parameter_find argv[0] (some e),
          ParamEvent.chprintf "unsupported type %d\n" [(parameters e).type]], parameters)

/-! ## Shape of the trace of `cmd_barometer` -/

/-- The three forms the calls of one pass through the loop body can take: the
temperature request fails; the temperature phase completes and the pressure
request fails; both phases complete and a reading is printed. -/
inductive Pass : List Event → Prop where
  | tempFailed (t : Int) (ht : t < 0) :
    Pass [Event.ms5611_adc_start AdcSrc.MS5611_ADC_TEMP Osr.MS5611_OSR_4096 t]
  | pressFailed (t : Int) (raw_t : Nat) (t2 : Int) (ht : 0 ≤ t) (ht2 : t2 < 0) :
    Pass [Event.ms5611_adc_start AdcSrc.MS5611_ADC_TEMP Osr.MS5611_OSR_4096 t,
          Event.chThdSleepMilliseconds (waitMs t),
          Event.ms5611_adc_read raw_t,
          Event.ms5611_adc_start AdcSrc.MS5611_ADC_PRESS Osr.MS5611_OSR_4096 t2]
  | reading (t : Int) (raw_t : Nat) (t2 : Int) (raw_p : Nat) (press : Nat) (temp : Int)
      (ht : 0 ≤ t) (ht2 : 0 ≤ t2) :
    Pass [Event.ms5611_adc_start AdcSrc.MS5611_ADC_TEMP Osr.MS5611_OSR_4096 t,
          Event.chThdSleepMilliseconds (waitMs t),
          Event.ms5611_adc_read raw_t,
          Event.ms5611_adc_start AdcSrc.MS5611_ADC_PRESS Osr.MS5611_OSR_4096 t2,
          Event.chThdSleepMilliseconds (waitMs t2),
          Event.ms5611_adc_read raw_p,
          Event.ms5611_calc_press raw_p raw_t press temp,
          Event.chprintf "pressure: %u, temperature: %u\r\n" [(press : Int), temp],
          Event.chThdSleepMilliseconds 100]

/-- The calls before the sampling loop of a session whose device init
succeeded. -/
def sessionHeader (configured : Bool) : List Event :=
  [Event.i2cStart i2c_cfg configured,
   Event.i2cAcquireBus,
   Event.chprintf "ms5611 init\r\n" [],
   Event.ms5611_i2c_init 0 0,
   Event.chprintf "ms5611 init succeeded\r\n" [],
   Event.chThdSleepMilliseconds 100]

/-- The whole trace of a session whose device init failed with `code`. -/
def failedSession (configured : Bool) (code : Int) (flags : Nat) : List Event :=
  [Event.i2cStart i2c_cfg configured,
   Event.i2cAcquireBus,
   Event.chprintf "ms5611 init\r\n" [],
   Event.ms5611_i2c_init 0 code,
   Event.i2cGetErrors flags,
   Event.chprintf "ms5611 init failed: %d, %u\r\n" [code, toUint32 flags],
   Event.i2cReleaseBus,
   Event.i2cStop]

/-- The calls that request, read or convert a sample. -/
def Event.isConversion : Event → Bool
  | Event.ms5611_adc_start _ _ _ => true
  | Event.ms5611_adc_read _ => true
  | Event.ms5611_calc_press _ _ _ _ => true
  | _ => false

/-! ## Test doubles -/

/-- A sensor whose init fails with code `-1`; the state is not used. -/
def hwInitFails : Hw Unit :=
  { i2cStart := fun s _ => (true, s)
    i2cAcquireBus := fun s => s
    i2cReleaseBus := fun s => s
    i2cStop := fun s => s
    i2cGetErrors := fun s => (4, s)
    chprintf := fun s _ _ => s
    chThdSleepMilliseconds := fun s _ => s
    ms5611_i2c_init := fun s _ => (-1, s)
    ms5611_adc_start := fun s _ _ => (9040, s)
    ms5611_adc_read := fun s => (0, s)
    ms5611_calc_press := fun s _ _ => ((0, 0), s) }

/-! ## Order of the calls inside a trace -/

/-- Every event of `l` that satisfies `trig` is immediately followed by a
block of events related to it by `R`. -/
def FollowedBy (trig : Event → Prop) (R : Event → List Event → Prop)
    (l : List Event) : Prop :=
  ∀ pre e post, l = pre ++ e :: post → trig e →
    ∃ blk post', post = blk ++ post' ∧ R e blk

/-- Every event of `l` that satisfies `trig` is immediately preceded, in
`acc ++ l`, by a block of events related to it by `R`. -/
def PrecededBy (trig : Event → Prop) (R : Event → List Event → Prop)
    (acc l : List Event) : Prop :=
  ∀ pre e post, l = pre ++ e :: post → trig e →
    ∃ pre' blk, acc ++ pre = pre' ++ blk ∧ R e blk

/-- A successful conversion request (`0 ≤ t`) is immediately followed by the
sleep of `waitMs t` milliseconds and by the read of the sample. -/
def sleepThenRead (e : Event) (blk : List Event) : Prop :=
  ∀ src osr t, e = Event.ms5611_adc_start src osr t → 0 ≤ t →
    ∃ raw, blk = [Event.chThdSleepMilliseconds (waitMs t), Event.ms5611_adc_read raw]

/-! ## Rounding of the wait (C5, C6) -/

/-- A sensor that answers every conversion request with a wait of `0`
microseconds. -/
def hwZeroWait : Hw Unit :=
  { i2cStart := fun s _ => (true, s)
    i2cAcquireBus := fun s => s
    i2cReleaseBus := fun s => s
    i2cStop := fun s => s
    i2cGetErrors := fun s => (0, s)
    chprintf := fun s _ _ => s
    chThdSleepMilliseconds := fun s _ => s
    ms5611_i2c_init := fun s _ => (0, s)
    ms5611_adc_start := fun s _ _ => (0, s)
    ms5611_adc_read := fun s => (8000000, s)
    ms5611_calc_press := fun s _ _ => ((101325, 2000), s) }

/-- A sensor that answers every conversion request with a wait of `9040`
microseconds; the state counts the samples read so far. -/
def hwNominal : Hw Nat :=
  { i2cStart := fun s _ => (true, s)
    i2cAcquireBus := fun s => s
    i2cReleaseBus := fun s => s
    i2cStop := fun s => s
    i2cGetErrors := fun s => (0, s)
    chprintf := fun s _ _ => s
    chThdSleepMilliseconds := fun s _ => s
    ms5611_i2c_init := fun s _ => (0, s)
    ms5611_adc_start := fun s _ _ => (9040, s)
    ms5611_adc_read := fun s => (8000000 + s, s + 1)
    ms5611_calc_press := fun s raw_p raw_t => ((raw_p - raw_t + 101325, 2000), s) }

/-! ## Temperature phase before pressure phase (C4) -/

/-- The event is a pressure conversion request. -/
def isPressRequest (e : Event) : Prop :=
  ∃ osr t2, e = Event.ms5611_adc_start AdcSrc.MS5611_ADC_PRESS osr t2

/-- The block is a completed temperature phase: request with a non-negative
wait, sleep, read. -/
def tempPhase (_e : Event) (blk : List Event) : Prop :=
  ∃ (t : Int) (raw_t : Nat), 0 ≤ t ∧
    blk = [Event.ms5611_adc_start AdcSrc.MS5611_ADC_TEMP Osr.MS5611_OSR_4096 t,
           Event.chThdSleepMilliseconds (waitMs t),
           Event.ms5611_adc_read raw_t]

/-- The event is a `chprintf` of a reading line. -/
def isReadingLine (e : Event) : Prop :=
  ∃ args, e = Event.chprintf "pressure: %u, temperature: %u\r\n" args

/-- The block is a completed pressure phase followed by the computation of the
values that the reading line `e` prints. -/
def pressPhase (e : Event) (blk : List Event) : Prop :=
  ∃ (t2 : Int) (raw_p raw_t press : Nat) (temp : Int), 0 ≤ t2 ∧
    e = Event.chprintf "pressure: %u, temperature: %u\r\n" [(press : Int), temp] ∧
    blk = [Event.ms5611_adc_start AdcSrc.MS5611_ADC_PRESS Osr.MS5611_OSR_4096 t2,
           Event.chThdSleepMilliseconds (waitMs t2),
           Event.ms5611_adc_read raw_p,
           Event.ms5611_calc_press raw_p raw_t press temp]

/-- The event is a temperature conversion request that failed. -/
def isFailedTempRequest (e : Event) : Prop :=
  ∃ osr t, e = Event.ms5611_adc_start AdcSrc.MS5611_ADC_TEMP osr t ∧ t < 0

/-- The event is the temperature request of a new pass or the release of the
bus. -/
def startsNextPass (b : Event) : Prop :=
  (∃ osr t, b = Event.ms5611_adc_start AdcSrc.MS5611_ADC_TEMP osr t) ∨
    b = Event.i2cReleaseBus

/-- The block is one event, which starts the next pass or releases the bus. -/
def nextPass (_e : Event) (blk : List Event) : Prop :=
  ∃ b, blk = [b] ∧ startsNextPass b

/-! ## Readings of a session (C3) -/

/-- The event is a temperature conversion request. -/
def Event.isTempRequest : Event → Bool
  | Event.ms5611_adc_start AdcSrc.MS5611_ADC_TEMP _ _ => true
  | _ => false

/-- A sensor whose conversion requests fail every fifth call; the state
counts the requests made so far. -/
def hwFlaky : Hw Nat :=
  { i2cStart := fun s _ => (true, s)
    i2cAcquireBus := fun s => s
    i2cReleaseBus := fun s => s
    i2cStop := fun s => s
    i2cGetErrors := fun s => (0, s)
    chprintf := fun s _ _ => s
    chThdSleepMilliseconds := fun s _ => s
    ms5611_i2c_init := fun s _ => (0, s)
    ms5611_adc_start := fun s _ _ => (if s % 5 = 3 then -1 else 9040, s + 1)
    ms5611_adc_read := fun s => (8000000 + s, s)
    ms5611_calc_press := fun s raw_p raw_t => ((raw_p + raw_t, 2000), s) }

/-! ## The reading line (C9) -/

/-- A sensor in the cold: `ms5611_calc_press` gives 101325 for the pressure and
`-523` (that is -5.23 degrees Celsius) for the temperature. -/
def hwCold : Hw Unit :=
  { i2cStart := fun s _ => (true, s)
    i2cAcquireBus := fun s => s
    i2cReleaseBus := fun s => s
    i2cStop := fun s => s
    i2cGetErrors := fun s => (0, s)
    chprintf := fun s _ _ => s
    chThdSleepMilliseconds := fun s _ => s
    ms5611_i2c_init := fun s _ => (0, s)
    ms5611_adc_start := fun s _ _ => (9040, s)
    ms5611_adc_read := fun s => (8000000, s)
    ms5611_calc_press := fun s _ _ => ((101325, -523), s) }

/-! ## Start of the transport (C10) -/

/-- A bus driver whose transport does not come up in `i2cStart`; the sensor
answers as the nominal one. -/
def hwNoTransport : Hw Nat :=
  { hwNominal with i2cStart := fun s _ => (false, s) }

/-- The collaborators `hw` with the outcome of `i2cStart` replaced by `b`. -/
def Hw.withStartResult {σ : Type} (hw : Hw σ) (b : Bool) : Hw σ :=
  { hw with i2cStart := fun s cfg => (b, (hw.i2cStart s cfg).2) }

/-! ## `cmd_parameter_set` (C7, C8) -/

/-- A parameter library over a store with two entries, `existing_scalar` at
reference 0 and `existing_nonscalar` at reference 1; `strtof` is given on the
texts the examples use. -/
def libExample : ParamLib Nat ℚ :=
  { parameter_find := fun _ id =>
      if id = "existing_scalar" then some 0
      else if id = "existing_nonscalar" then some 1
      else none
    strtof := fun text => if text = "3.25" then 13 / 4 else if text = "1.0" then 1 else 0
    PARAM_TYPE_SCALAR := 1 }

/-- The store of the examples: entry 0 is a scalar of value 0, every other
entry has type tag 2. -/
def storeExample : Nat → parameter_t ℚ :=
  fun r => if r = 0 then { type := 1, value := 0 } else { type := 2, value := 0 }

/-! # Theorems -/

/-! ## Shape of the trace of `cmd_barometer` -/

theorem passEvents_pass {σ : Type} (hw : Hw σ) (s : σ) :
    Pass (passEvents hw s) := by
  unfold passEvents
  dsimp only
  split
  · exact Pass.tempFailed _ (by assumption)
  · split
    · exact Pass.pressFailed _ _ _ (not_lt.mp (by assumption)) (by assumption)
    · exact Pass.reading _ _ _ _ _ _ (not_lt.mp (by assumption)) (not_lt.mp (by assumption))

/-- A pass of the loop body run on the recorder does to the state of `hw` what
the pass does on `hw`, and appends to the log the calls of `passEvents`. -/
theorem barometerBody_recorder {σ : Type} (hw : Hw σ) (s : σ) (log : List Event) :
    barometerBody (recorder hw) (s, log) = (barometerBody hw s, log ++ passEvents hw s) := by
  unfold barometerBody passEvents
  simp only [recorder]
  split
  · rfl
  · split
    · simp [List.append_assoc]
    · simp [List.append_assoc]

theorem barometerLoop_recorder {σ : Type} (hw : Hw σ) :
    ∀ (n : Nat) (s : σ) (log : List Event),
      barometerLoop (recorder hw) n (s, log) =
        (barometerLoop hw n s, log ++ ((passStates hw n s).map (passEvents hw)).flatten) := by
  intro n
  induction n with
  | zero => intro s log; simp [barometerLoop, passStates]
  | succ n ih =>
    intro s log
    simp only [barometerLoop, passStates, barometerBody_recorder, ih, List.map_cons,
      List.flatten_cons, List.append_assoc]

theorem passStates_length {σ : Type} (hw : Hw σ) :
    ∀ (n : Nat) (s : σ), (passStates hw n s).length = n := by
  intro n
  induction n with
  | zero => intro s; rfl
  | succ n ih => intro s; simp [passStates, ih]

/-- The run on the recorder and the run on `hw` leave the same state of
`hw`, and the log of the run is: the failed session when the probe returns a
non-zero code; else the header, the calls of the fifty passes, each started in
the state the pass before left, and the teardown. -/
theorem cmd_barometer_recorder {σ : Type} (hw : Hw σ) (s : σ) :
    cmd_barometer (recorder hw) (s, []) =
      (cmd_barometer hw s,
       if (probe hw s).1 ≠ 0 then
         failedSession (hw.i2cStart s i2c_cfg).1 (probe hw s).1
           (hw.i2cGetErrors (probe hw s).2).1
       else
         sessionHeader (hw.i2cStart s i2c_cfg).1 ++
           ((passStates hw 50 (samplingStart hw s)).map (passEvents hw)).flatten ++
           [Event.i2cReleaseBus, Event.i2cStop]) := by
  have hloop : ∀ st : σ × List Event, barometerLoop (recorder hw) 50 st =
      (barometerLoop hw 50 st.1,
       st.2 ++ ((passStates hw 50 st.1).map (passEvents hw)).flatten) :=
    fun st => barometerLoop_recorder hw 50 st.1 st.2
  unfold cmd_barometer
  simp only [hloop]
  simp only [recorder, probe, samplingStart]
  split
  · simp [failedSession]
  · rename_i h
    have h0 := not_not.mp h
    simp [sessionHeader, h0]

theorem cmd_barometer_trace_eq {σ : Type} (hw : Hw σ) (s : σ) :
    (cmd_barometer_trace hw s) =
      if (probe hw s).1 ≠ 0 then
        failedSession (hw.i2cStart s i2c_cfg).1 (probe hw s).1
          (hw.i2cGetErrors (probe hw s).2).1
      else
        sessionHeader (hw.i2cStart s i2c_cfg).1 ++
          ((passStates hw 50 (samplingStart hw s)).map (passEvents hw)).flatten ++
          [Event.i2cReleaseBus, Event.i2cStop] := by
  unfold cmd_barometer_trace
  rw [cmd_barometer_recorder]

/-- Every run of `cmd_barometer` has one of two traces: the failed session, or
the header, fifty passes through the loop body, and the teardown. -/
theorem cmd_barometer_shape {σ : Type} (hw : Hw σ) (s : σ) :
    (∃ configured code flags, code ≠ 0 ∧
        (cmd_barometer_trace hw s) = failedSession configured code flags) ∨
    (∃ configured, ∃ ps : List (List Event), ps.length = 50 ∧ (∀ p ∈ ps, Pass p) ∧
        (cmd_barometer_trace hw s) =
          sessionHeader configured ++ ps.flatten ++ [Event.i2cReleaseBus, Event.i2cStop]) := by
  rw [cmd_barometer_trace_eq]
  split
  · left
    exact ⟨_, _, _, by assumption, rfl⟩
  · right
    refine ⟨_, (passStates hw 50 (samplingStart hw s)).map (passEvents hw),
      by simp [passStates_length], ?_, rfl⟩
    intro p hp
    obtain ⟨st, _, rfl⟩ := List.mem_map.mp hp
    exact passEvents_pass hw st

theorem Pass.isSampling {p : List Event} (hp : Pass p) :
    ∀ e ∈ p, e.isSampling = true := by
  cases hp <;> simp [Event.isSampling]

theorem flatten_isSampling {ps : List (List Event)} (hall : ∀ p ∈ ps, Pass p) :
    ∀ e ∈ ps.flatten, e.isSampling = true := by
  intro e he
  obtain ⟨p, hp, hep⟩ := List.mem_flatten.mp he
  exact (hall p hp).isSampling e hep

/-! ## Bus ownership (C1) and device-init failure (C2) -/

/-- C1: every run of `cmd_barometer` is `i2cStart`, `i2cAcquireBus`, a middle
part, `i2cReleaseBus`, `i2cStop`, where the middle part holds no acquire, no
release and no stop and holds every device transaction of the run
(`ms5611_i2c_init`, `ms5611_adc_start`, `ms5611_adc_read`); so the trace has
exactly one acquire, exactly one release, after the acquire and after every
device transaction, and the release is immediately followed by the single
`i2cStop` that ends the trace. -/
theorem cmd_barometer_bus_balanced {σ : Type} (hw : Hw σ) (s : σ) :
    ∃ (configured : Bool) (mid : List Event),
      (cmd_barometer_trace hw s) =
        Event.i2cStart i2c_cfg configured :: Event.i2cAcquireBus ::
          (mid ++ [Event.i2cReleaseBus, Event.i2cStop]) ∧
      Event.i2cAcquireBus ∉ mid ∧ Event.i2cReleaseBus ∉ mid ∧ Event.i2cStop ∉ mid ∧
      (∀ e ∈ (cmd_barometer_trace hw s), e.isDeviceTransaction = true → e ∈ mid) ∧
      (cmd_barometer_trace hw s).count Event.i2cAcquireBus = 1 ∧
      (cmd_barometer_trace hw s).count Event.i2cReleaseBus = 1 ∧
      (cmd_barometer_trace hw s).count Event.i2cStop = 1 := by
  rcases cmd_barometer_shape hw s with ⟨c, code, flags, _, htr⟩ | ⟨c, ps, _, hall, htr⟩
  · refine ⟨c, [Event.chprintf "ms5611 init\r\n" [], Event.ms5611_i2c_init 0 code,
      Event.i2cGetErrors flags,
      Event.chprintf "ms5611 init failed: %d, %u\r\n" [code, toUint32 flags]], ?_⟩
    rw [htr]
    simp [failedSession, Event.isDeviceTransaction]
  · have hs := flatten_isSampling hall
    have h1 : Event.i2cAcquireBus ∉ ps.flatten := fun h => by simpa [Event.isSampling] using hs _ h
    have h2 : Event.i2cReleaseBus ∉ ps.flatten := fun h => by simpa [Event.isSampling] using hs _ h
    have h3 : Event.i2cStop ∉ ps.flatten := fun h => by simpa [Event.isSampling] using hs _ h
    refine ⟨c, [Event.chprintf "ms5611 init\r\n" [], Event.ms5611_i2c_init 0 0,
      Event.chprintf "ms5611 init succeeded\r\n" [], Event.chThdSleepMilliseconds 100]
      ++ ps.flatten, ?_⟩
    rw [htr]
    refine ⟨by simp [sessionHeader], by simp [h1], by simp [h2], by simp [h3], ?_, ?_, ?_, ?_⟩
    · intro e he hd
      simp only [sessionHeader, List.cons_append, List.nil_append, List.mem_cons,
        List.mem_append] at he
      rcases he with rfl | rfl | rfl | rfl | rfl | rfl | he | rfl | rfl | he
      · simp [Event.isDeviceTransaction] at hd
      · simp [Event.isDeviceTransaction] at hd
      · simp
      · simp
      · simp
      · simp
      · simp [he]
      · simp [Event.isDeviceTransaction] at hd
      · simp [Event.isDeviceTransaction] at hd
      · simp at he
    · simp [sessionHeader, List.count_cons, List.count_append,
        List.count_eq_zero_of_not_mem h1]
    · simp [sessionHeader, List.count_cons, List.count_append,
        List.count_eq_zero_of_not_mem h2]
    · simp [sessionHeader, List.count_cons, List.count_append,
        List.count_eq_zero_of_not_mem h3]

/-- C2: when `ms5611_i2c_init` returns a non-zero code, that code is the one
the probe of the run returned and the calls the collaborators receive are
exactly: start, acquire, the banner, the init call, `i2cGetErrors`, the failure
message carrying the code and the flags that `i2cGetErrors` returned in the
state the probe left, one `i2cReleaseBus`, `i2cStop`.  The state the command
leaves is the one reached by these calls.  The trace holds no
`ms5611_adc_start`, `ms5611_adc_read` or `ms5611_calc_press` call and emits no
reading. -/
theorem cmd_barometer_init_failure {σ : Type} (hw : Hw σ) (s : σ) (code : Int)
    (hinit : Event.ms5611_i2c_init 0 code ∈ (cmd_barometer_trace hw s)) (hcode : code ≠ 0) :
    code = (probe hw s).1 ∧
    (cmd_barometer_trace hw s) =
      [Event.i2cStart i2c_cfg (hw.i2cStart s i2c_cfg).1,
       Event.i2cAcquireBus,
       Event.chprintf "ms5611 init\r\n" [],
       Event.ms5611_i2c_init 0 code,
       Event.i2cGetErrors (hw.i2cGetErrors (probe hw s).2).1,
       Event.chprintf "ms5611 init failed: %d, %u\r\n"
         [code, toUint32 (hw.i2cGetErrors (probe hw s).2).1],
       Event.i2cReleaseBus,
       Event.i2cStop] ∧
    cmd_barometer hw s =
      hw.i2cStop (hw.i2cReleaseBus (hw.chprintf (hw.i2cGetErrors (probe hw s).2).2
        "ms5611 init failed: %d, %u\r\n"
        [code, toUint32 (hw.i2cGetErrors (probe hw s).2).1])) ∧
    readings (cmd_barometer_trace hw s) = [] ∧
    (∀ e ∈ (cmd_barometer_trace hw s), e.isConversion = false) ∧
    (cmd_barometer_trace hw s).count Event.i2cReleaseBus = 1 := by
  have htr := cmd_barometer_trace_eq hw s
  by_cases hp : (probe hw s).1 ≠ 0
  · rw [if_pos hp] at htr
    rw [htr] at hinit ⊢
    have hc : code = (probe hw s).1 := by
      simpa [failedSession] using hinit
    subst hc
    refine ⟨rfl, rfl, ?_, ?_, ?_, ?_⟩
    · unfold cmd_barometer
      simp only [probe] at hp ⊢
      rw [if_pos hp]
    · simp [failedSession, readings, Event.reading]
    · simp [failedSession, Event.isConversion]
    · simp [failedSession, List.count_cons]
  · exfalso
    rw [if_neg hp] at htr
    rw [htr] at hinit
    simp only [sessionHeader, List.cons_append, List.nil_append, List.mem_cons,
      List.mem_append, List.mem_flatten, List.mem_map] at hinit
    rcases hinit with h | h | h | h | h | h | h | h
    · cases h
    · cases h
    · cases h
    · injection h with _ h0; exact hcode h0
    · cases h
    · cases h
    · obtain ⟨p, ⟨st, _, rfl⟩, hmem⟩ := h
      simpa [Event.isSampling] using (passEvents_pass hw st).isSampling _ hmem
    · simp at h

/-- Witness for C2 on a sensor whose init returns `-1` and whose bus driver
reports the error flags `4`. -/
theorem cmd_barometer_init_failure_witness :
    Event.ms5611_i2c_init 0 (-1) ∈ (cmd_barometer_trace hwInitFails ()) ∧ (-1 : Int) ≠ 0 ∧
    (cmd_barometer_trace hwInitFails ()) =
      [Event.i2cStart i2c_cfg true,
       Event.i2cAcquireBus,
       Event.chprintf "ms5611 init\r\n" [],
       Event.ms5611_i2c_init 0 (-1),
       Event.i2cGetErrors 4,
       Event.chprintf "ms5611 init failed: %d, %u\r\n" [-1, 4],
       Event.i2cReleaseBus,
       Event.i2cStop] ∧
    output (cmd_barometer_trace hwInitFails ()) =
      ["ms5611 init\r\n", "ms5611 init failed: -1, 4\r\n"] ∧
    readings (cmd_barometer_trace hwInitFails ()) = [] ∧
    (cmd_barometer_trace hwInitFails ()).count Event.i2cReleaseBus = 1 :=
  ⟨by decide, by decide,
    (cmd_barometer_init_failure hwInitFails () (-1) (by decide) (by decide)).2.1,
    by decide,
    (cmd_barometer_init_failure hwInitFails () (-1) (by decide) (by decide)).2.2.2.1,
    (cmd_barometer_init_failure hwInitFails () (-1) (by decide) (by decide)).2.2.2.2.2⟩

/-! ## Order of the calls inside a trace -/

theorem followedBy_nil {trig : Event → Prop} {R : Event → List Event → Prop} :
    FollowedBy trig R [] := by
  intro pre e post h
  simp at h

theorem followedBy_cons {trig : Event → Prop} {R : Event → List Event → Prop}
    {x : Event} {l : List Event}
    (hx : trig x → ∃ blk post', l = blk ++ post' ∧ R x blk)
    (hl : FollowedBy trig R l) : FollowedBy trig R (x :: l) := by
  intro pre e post h he
  rcases pre with _ | ⟨a, pre⟩
  · simp only [List.nil_append, List.cons.injEq] at h
    obtain ⟨rfl, rfl⟩ := h
    exact hx he
  · simp only [List.cons_append, List.cons.injEq] at h
    exact hl pre e post h.2 he

theorem precededBy_nil {trig : Event → Prop} {R : Event → List Event → Prop}
    {acc : List Event} : PrecededBy trig R acc [] := by
  intro pre e post h
  simp at h

theorem precededBy_cons {trig : Event → Prop} {R : Event → List Event → Prop}
    {acc : List Event} {x : Event} {l : List Event}
    (hx : trig x → ∃ pre' blk, acc = pre' ++ blk ∧ R x blk)
    (hl : PrecededBy trig R (acc ++ [x]) l) : PrecededBy trig R acc (x :: l) := by
  intro pre e post h he
  rcases pre with _ | ⟨a, pre⟩
  · simp only [List.nil_append, List.cons.injEq] at h
    obtain ⟨rfl, rfl⟩ := h
    simpa using hx he
  · simp only [List.cons_append, List.cons.injEq] at h
    obtain ⟨rfl, h⟩ := h
    obtain ⟨pre', blk, hp, hr⟩ := hl pre e post h he
    exact ⟨pre', blk, by simpa using hp, hr⟩

theorem Pass.followedBy_sleepThenRead {p : List Event} (hp : Pass p) {l : List Event}
    (hl : FollowedBy (fun _ => True) sleepThenRead l) :
    FollowedBy (fun _ => True) sleepThenRead (p ++ l) := by
  have skip : ∀ (x : Event) (post : List Event),
      (∀ src osr t, x = Event.ms5611_adc_start src osr t → ¬ 0 ≤ t) →
      (True → ∃ blk post', post = blk ++ post' ∧ sleepThenRead x blk) := by
    intro x post hx _
    exact ⟨[], post, rfl, fun src osr t h ht => absurd ht (hx src osr t h)⟩
  have hit : ∀ (src : AdcSrc) (osr : Osr) (t : Int) (raw : Nat) (post : List Event),
      (True → ∃ blk post', Event.chThdSleepMilliseconds (waitMs t) ::
          Event.ms5611_adc_read raw :: post = blk ++ post' ∧
        sleepThenRead (Event.ms5611_adc_start src osr t) blk) := by
    intro src osr t raw post _
    refine ⟨[Event.chThdSleepMilliseconds (waitMs t), Event.ms5611_adc_read raw], post, rfl, ?_⟩
    intro src' osr' t' h _
    injection h with _ _ h3
    subst h3
    exact ⟨raw, rfl⟩
  cases hp with
  | tempFailed t ht =>
    refine followedBy_cons (skip _ _ ?_) hl
    intro src osr t' h
    injection h with _ _ h3
    omega
  | pressFailed t raw_t t2 ht ht2 =>
    refine followedBy_cons (hit _ _ _ _ _) (followedBy_cons (skip _ _ ?_)
      (followedBy_cons (skip _ _ ?_) (followedBy_cons (skip _ _ ?_) hl)))
    · intro src osr t' h; cases h
    · intro src osr t' h; cases h
    · intro src osr t' h
      injection h with _ _ h3
      omega
  | reading t raw_t t2 raw_p press temp ht ht2 =>
    refine followedBy_cons (hit _ _ _ _ _) (followedBy_cons (skip _ _ ?_)
      (followedBy_cons (skip _ _ ?_) (followedBy_cons (hit _ _ _ _ _)
      (followedBy_cons (skip _ _ ?_) (followedBy_cons (skip _ _ ?_)
      (followedBy_cons (skip _ _ ?_) (followedBy_cons (skip _ _ ?_)
      (followedBy_cons (skip _ _ ?_) hl))))))))
    all_goals intro src osr t' h; cases h

theorem flatten_followedBy_sleepThenRead {ps : List (List Event)}
    (hall : ∀ p ∈ ps, Pass p) {l : List Event}
    (hl : FollowedBy (fun _ => True) sleepThenRead l) :
    FollowedBy (fun _ => True) sleepThenRead (ps.flatten ++ l) := by
  induction ps with
  | nil => simpa using hl
  | cons p ps ih =>
    rw [List.flatten_cons, List.append_assoc]
    exact (hall p (List.mem_cons_self _ _)).followedBy_sleepThenRead
      (ih (fun q hq => hall q (List.mem_cons_of_mem _ hq)))

/-- In every trace of `cmd_barometer`, a conversion request that returned a
non-negative wait `t` is immediately followed by a sleep of `waitMs t`
milliseconds and then by the read of the raw sample. -/
theorem cmd_barometer_request_then_sleep {σ : Type} (hw : Hw σ) (s : σ)
    (pre post : List Event) (src : AdcSrc) (osr : Osr) (t : Int)
    (hocc : (cmd_barometer_trace hw s) = pre ++ Event.ms5611_adc_start src osr t :: post)
    (ht : 0 ≤ t) :
    ∃ raw post', post =
      Event.chThdSleepMilliseconds (waitMs t) :: Event.ms5611_adc_read raw :: post' := by
  have key : FollowedBy (fun _ => True) sleepThenRead (cmd_barometer_trace hw s) := by
    have skip : ∀ (x : Event) (post : List Event),
        (∀ src osr t, x ≠ Event.ms5611_adc_start src osr t) →
        (True → ∃ blk post', post = blk ++ post' ∧ sleepThenRead x blk) := by
      intro x post hx _
      exact ⟨[], post, rfl, fun src osr t h _ => absurd h (hx src osr t)⟩
    rcases cmd_barometer_shape hw s with ⟨c, code, flags, _, htr⟩ | ⟨c, ps, _, hall, htr⟩
    · rw [htr]
      unfold failedSession
      refine followedBy_cons (skip _ _ ?_) (followedBy_cons (skip _ _ ?_)
        (followedBy_cons (skip _ _ ?_) (followedBy_cons (skip _ _ ?_)
        (followedBy_cons (skip _ _ ?_) (followedBy_cons (skip _ _ ?_)
        (followedBy_cons (skip _ _ ?_) (followedBy_cons (skip _ _ ?_)
        followedBy_nil)))))))
      all_goals intro src osr t' h; cases h
    · rw [htr]
      have htail : FollowedBy (fun _ => True) sleepThenRead
          [Event.i2cReleaseBus, Event.i2cStop] := by
        refine followedBy_cons (skip _ _ ?_) (followedBy_cons (skip _ _ ?_) followedBy_nil)
        all_goals intro src osr t' h; cases h
      have hbody := flatten_followedBy_sleepThenRead hall htail
      rw [List.append_assoc]
      unfold sessionHeader
      refine followedBy_cons (skip _ _ ?_) (followedBy_cons (skip _ _ ?_)
        (followedBy_cons (skip _ _ ?_) (followedBy_cons (skip _ _ ?_)
        (followedBy_cons (skip _ _ ?_) (followedBy_cons (skip _ _ ?_) hbody)))))
      all_goals intro src osr t' h; cases h
  obtain ⟨blk, post', hpost, hR⟩ := key pre _ post hocc trivial
  obtain ⟨raw, hblk⟩ := hR src osr t rfl ht
  subst hblk
  exact ⟨raw, post', hpost⟩

/-! ## Rounding of the wait (C5, C6) -/

theorem waitMs_of_pos (t : Int) (ht : 1 ≤ t) : waitMs t = (t - 1) / 1000 + 1 := by
  unfold waitMs
  rw [Int.tdiv_eq_ediv (by omega) (by omega)]

theorem waitMs_eq_ceil (t : Int) (ht : 1 ≤ t) : waitMs t = ⌈(t : ℚ) / 1000⌉ := by
  rw [waitMs_of_pos t ht]
  symm
  rw [Int.ceil_eq_iff]
  have h1 : 1000 * ((t - 1) / 1000) < t := by omega
  have h2 : t ≤ 1000 * ((t - 1) / 1000) + 1000 := by omega
  have h1q : (1000 : ℚ) * (((t - 1) / 1000 : Int) : ℚ) < (t : ℚ) := by exact_mod_cast h1
  have h2q : (t : ℚ) ≤ 1000 * (((t - 1) / 1000 : Int) : ℚ) + 1000 := by exact_mod_cast h2
  constructor
  · rw [lt_div_iff₀ (by norm_num)]
    push_cast
    linarith
  · rw [div_le_iff₀ (by norm_num)]
    push_cast
    linarith

theorem waitMs_zero : waitMs 0 = 1 := by decide

theorem waitMs_of_decomp (k r : Int) (hk : 0 ≤ k) (hr1 : 1 ≤ r) (hr2 : r ≤ 1000) :
    waitMs (1000 * k + r) = k + 1 := by
  rw [waitMs_of_pos _ (by omega)]
  omega

/-- C5, refuted as stated: a request that returns the non-negative wait `0`
is followed by a sleep of `1` millisecond, while `ceil(0 / 1000)` is `0`. -/
theorem cmd_barometer_sleep_at_zero_wait :
    ∃ pre post, (cmd_barometer_trace hwZeroWait ()) =
        pre ++ Event.ms5611_adc_start AdcSrc.MS5611_ADC_TEMP Osr.MS5611_OSR_4096 0 ::
          Event.chThdSleepMilliseconds 1 :: post ∧
      (0 : Int) ≤ 0 ∧ (0 : Int) ≤ 32767 ∧ (1 : Int) ≠ ⌈((0 : Int) : ℚ) / 1000⌉ := by
  refine ⟨sessionHeader true, (cmd_barometer_trace hwZeroWait ()).drop 8, by decide,
    by decide, by decide, by norm_num⟩

/-- C5, amended: in every trace of `cmd_barometer`, a conversion request
(temperature or pressure) that returns a wait `t` with `0 ≤ t ≤ 32767` is
immediately followed by a sleep of `(t - 1)/1000 + 1` milliseconds and then by
the read of the raw sample; that sleep is `ceil(t / 1000)` when `1 ≤ t`, and
`1` when `t = 0`. -/
theorem cmd_barometer_sleep_is_ceil {σ : Type} (hw : Hw σ) (s : σ)
    (pre post : List Event) (src : AdcSrc) (osr : Osr) (t : Int)
    (hocc : (cmd_barometer_trace hw s) = pre ++ Event.ms5611_adc_start src osr t :: post)
    (ht : 0 ≤ t) (_hmax : t ≤ 32767) :
    ∃ (ms : Int) (raw : Nat) (post' : List Event),
      post = Event.chThdSleepMilliseconds ms :: Event.ms5611_adc_read raw :: post' ∧
      (1 ≤ t → ms = ⌈(t : ℚ) / 1000⌉) ∧ (t = 0 → ms = 1) := by
  obtain ⟨raw, post', hpost⟩ := cmd_barometer_request_then_sleep hw s pre post src osr t hocc ht
  refine ⟨waitMs t, raw, post', hpost, waitMs_eq_ceil t, ?_⟩
  intro h0
  subst h0
  exact waitMs_zero

/-- Witness for C5 (amended): the first temperature request of the nominal
sensor, whose wait is `9040` microseconds. -/
theorem cmd_barometer_sleep_is_ceil_witness :
    (cmd_barometer_trace hwNominal 0) = sessionHeader true ++
        Event.ms5611_adc_start AdcSrc.MS5611_ADC_TEMP Osr.MS5611_OSR_4096 9040 ::
          (cmd_barometer_trace hwNominal 0).drop 7 ∧
    ∃ (ms : Int) (raw : Nat) (post' : List Event),
      (cmd_barometer_trace hwNominal 0).drop 7 =
        Event.chThdSleepMilliseconds ms :: Event.ms5611_adc_read raw :: post' ∧
      (1 ≤ (9040 : Int) → ms = ⌈((9040 : Int) : ℚ) / 1000⌉) ∧ ((9040 : Int) = 0 → ms = 1) :=
  ⟨by decide, cmd_barometer_sleep_is_ceil hwNominal 0 (sessionHeader true)
    ((cmd_barometer_trace hwNominal 0).drop 7) AdcSrc.MS5611_ADC_TEMP Osr.MS5611_OSR_4096 9040
    (by decide) (by decide) (by decide)⟩

/-- C6: in every trace of `cmd_barometer`, a conversion request that returns a
wait `t = 1000*k + r` microseconds with `0 ≤ k`, `1 ≤ r ≤ 1000` and
`t ≤ 32767` is immediately followed by a sleep of `k + 1` milliseconds, the
value of `(t - 1)/1000 + 1`; a wait of 1 gives 1 ms, a wait of 1000 gives 1 ms
and a wait of 1001 gives 2 ms. -/
theorem cmd_barometer_sleep_rounds_up {σ : Type} (hw : Hw σ) (s : σ)
    (pre post : List Event) (src : AdcSrc) (osr : Osr) (t k r : Int)
    (hocc : (cmd_barometer_trace hw s) = pre ++ Event.ms5611_adc_start src osr t :: post)
    (hk : 0 ≤ k) (hr1 : 1 ≤ r) (hr2 : r ≤ 1000) (ht : t = 1000 * k + r)
    (_hmax : t ≤ 32767) :
    (∃ post', post = Event.chThdSleepMilliseconds (k + 1) :: post') ∧
    waitMs t = k + 1 ∧ waitMs 1 = 1 ∧ waitMs 1000 = 1 ∧ waitMs 1001 = 2 := by
  have hw1 : waitMs t = k + 1 := by
    rw [ht]
    exact waitMs_of_decomp k r hk hr1 hr2
  obtain ⟨raw, post', hpost⟩ :=
    cmd_barometer_request_then_sleep hw s pre post src osr t hocc (by omega)
  refine ⟨⟨Event.ms5611_adc_read raw :: post', ?_⟩, hw1, by decide, by decide, by decide⟩
  rw [hpost, hw1]

/-- Witness for C6: the first temperature request of the nominal sensor, whose
wait is `9040 = 1000*9 + 40` microseconds, is followed by a sleep of 10 ms. -/
theorem cmd_barometer_sleep_rounds_up_witness :
    (cmd_barometer_trace hwNominal 0) = sessionHeader true ++
        Event.ms5611_adc_start AdcSrc.MS5611_ADC_TEMP Osr.MS5611_OSR_4096 9040 ::
          (cmd_barometer_trace hwNominal 0).drop 7 ∧
    (∃ post', (cmd_barometer_trace hwNominal 0).drop 7 =
        Event.chThdSleepMilliseconds (9 + 1) :: post') ∧
    waitMs 9040 = 9 + 1 ∧ waitMs 1 = 1 ∧ waitMs 1000 = 1 ∧ waitMs 1001 = 2 :=
  ⟨by decide, cmd_barometer_sleep_rounds_up hwNominal 0 (sessionHeader true)
    ((cmd_barometer_trace hwNominal 0).drop 7) AdcSrc.MS5611_ADC_TEMP Osr.MS5611_OSR_4096
    9040 9 40 (by decide) (by decide) (by decide) (by decide) (by decide) (by decide)⟩

/-! ## Temperature phase before pressure phase (C4) -/

theorem precededBy_skip {trig : Event → Prop} {R : Event → List Event → Prop}
    {acc : List Event} {x : Event} (hx : ¬ trig x) :
    trig x → ∃ pre' blk, acc = pre' ++ blk ∧ R x blk :=
  fun h => absurd h hx

theorem followedBy_skip {trig : Event → Prop} {R : Event → List Event → Prop}
    {l : List Event} {x : Event} (hx : ¬ trig x) :
    trig x → ∃ blk post', l = blk ++ post' ∧ R x blk :=
  fun h => absurd h hx

theorem Pass.precededBy_tempPhase {p : List Event} (hp : Pass p) {l : List Event}
    (hl : ∀ acc, PrecededBy isPressRequest tempPhase acc l) :
    ∀ acc, PrecededBy isPressRequest tempPhase acc (p ++ l) := by
  intro acc
  have hit : ∀ (t : Int) (raw_t : Nat) (x : Event), 0 ≤ t →
      (isPressRequest x → ∃ pre' blk,
        acc ++ [Event.ms5611_adc_start AdcSrc.MS5611_ADC_TEMP Osr.MS5611_OSR_4096 t] ++
          [Event.chThdSleepMilliseconds (waitMs t)] ++ [Event.ms5611_adc_read raw_t] =
          pre' ++ blk ∧ tempPhase x blk) := by
    intro t raw_t x ht _
    exact ⟨acc, _, by simp, t, raw_t, ht, rfl⟩
  cases hp with
  | tempFailed t ht =>
    refine precededBy_cons (precededBy_skip ?_) (hl _)
    rintro ⟨_, _, h⟩; cases h
  | pressFailed t raw_t t2 ht ht2 =>
    refine precededBy_cons (precededBy_skip ?_) (precededBy_cons (precededBy_skip ?_)
      (precededBy_cons (precededBy_skip ?_) (precededBy_cons (hit t raw_t _ ht) (hl _))))
    all_goals rintro ⟨_, _, h⟩; cases h
  | reading t raw_t t2 raw_p press temp ht ht2 =>
    refine precededBy_cons (precededBy_skip ?_) (precededBy_cons (precededBy_skip ?_)
      (precededBy_cons (precededBy_skip ?_) (precededBy_cons (hit t raw_t _ ht)
      (precededBy_cons (precededBy_skip ?_) (precededBy_cons (precededBy_skip ?_)
      (precededBy_cons (precededBy_skip ?_) (precededBy_cons (precededBy_skip ?_)
      (precededBy_cons (precededBy_skip ?_) (hl _)))))))))
    all_goals rintro ⟨_, _, h⟩; cases h

theorem Pass.precededBy_pressPhase {p : List Event} (hp : Pass p) {l : List Event}
    (hl : ∀ acc, PrecededBy isReadingLine pressPhase acc l) :
    ∀ acc, PrecededBy isReadingLine pressPhase acc (p ++ l) := by
  intro acc
  cases hp with
  | tempFailed t ht =>
    refine precededBy_cons (precededBy_skip ?_) (hl _)
    rintro ⟨_, h⟩; cases h
  | pressFailed t raw_t t2 ht ht2 =>
    refine precededBy_cons (precededBy_skip ?_) (precededBy_cons (precededBy_skip ?_)
      (precededBy_cons (precededBy_skip ?_) (precededBy_cons (precededBy_skip ?_) (hl _))))
    all_goals rintro ⟨_, h⟩; cases h
  | reading t raw_t t2 raw_p press temp ht ht2 =>
    refine precededBy_cons (precededBy_skip ?_) (precededBy_cons (precededBy_skip ?_)
      (precededBy_cons (precededBy_skip ?_) (precededBy_cons (precededBy_skip ?_)
      (precededBy_cons (precededBy_skip ?_) (precededBy_cons (precededBy_skip ?_)
      (precededBy_cons (precededBy_skip ?_) (precededBy_cons ?_
      (precededBy_cons (precededBy_skip ?_) (hl _)))))))))
    case refine_8 =>
      intro _
      exact ⟨acc ++ [Event.ms5611_adc_start AdcSrc.MS5611_ADC_TEMP Osr.MS5611_OSR_4096 t,
          Event.chThdSleepMilliseconds (waitMs t), Event.ms5611_adc_read raw_t], _,
        by simp, t2, raw_p, raw_t, press, temp, ht2, rfl, rfl⟩
    all_goals rintro ⟨_, h⟩; cases h

theorem Pass.followedBy_nextPass {p : List Event} (hp : Pass p) {l : List Event}
    (hhead : ∃ b l', l = b :: l' ∧ startsNextPass b)
    (hl : FollowedBy isFailedTempRequest nextPass l) :
    FollowedBy isFailedTempRequest nextPass (p ++ l) := by
  cases hp with
  | tempFailed t ht =>
    refine followedBy_cons ?_ hl
    intro _
    obtain ⟨b, l', hb, hs⟩ := hhead
    exact ⟨[b], l', by simp [hb], b, rfl, hs⟩
  | pressFailed t raw_t t2 ht ht2 =>
    refine followedBy_cons (followedBy_skip ?_) (followedBy_cons (followedBy_skip ?_)
      (followedBy_cons (followedBy_skip ?_) (followedBy_cons (followedBy_skip ?_) hl)))
    · rintro ⟨_, _, h, hneg⟩
      injection h with _ _ h3
      omega
    all_goals rintro ⟨_, _, h, _⟩; cases h
  | reading t raw_t t2 raw_p press temp ht ht2 =>
    refine followedBy_cons (followedBy_skip ?_) (followedBy_cons (followedBy_skip ?_)
      (followedBy_cons (followedBy_skip ?_) (followedBy_cons (followedBy_skip ?_)
      (followedBy_cons (followedBy_skip ?_) (followedBy_cons (followedBy_skip ?_)
      (followedBy_cons (followedBy_skip ?_) (followedBy_cons (followedBy_skip ?_)
      (followedBy_cons (followedBy_skip ?_) hl))))))))
    · rintro ⟨_, _, h, hneg⟩
      injection h with _ _ h3
      omega
    all_goals rintro ⟨_, _, h, _⟩; cases h

theorem Pass.head_startsNextPass {p : List Event} (hp : Pass p) (l : List Event) :
    ∃ b l', p ++ l = b :: l' ∧ startsNextPass b := by
  cases hp <;> exact ⟨_, _, rfl, Or.inl ⟨_, _, rfl⟩⟩

theorem flatten_head_startsNextPass {ps : List (List Event)} (hall : ∀ p ∈ ps, Pass p)
    (l : List Event) :
    ∃ b l', ps.flatten ++ Event.i2cReleaseBus :: l = b :: l' ∧ startsNextPass b := by
  cases ps with
  | nil => exact ⟨_, _, rfl, Or.inr rfl⟩
  | cons p ps =>
    rw [List.flatten_cons, List.append_assoc]
    exact (hall p (List.mem_cons_self _ _)).head_startsNextPass _

theorem flatten_precededBy_tempPhase {ps : List (List Event)} (hall : ∀ p ∈ ps, Pass p)
    {l : List Event} (hl : ∀ acc, PrecededBy isPressRequest tempPhase acc l) :
    ∀ acc, PrecededBy isPressRequest tempPhase acc (ps.flatten ++ l) := by
  induction ps with
  | nil => simpa using hl
  | cons p ps ih =>
    rw [List.flatten_cons, List.append_assoc]
    exact (hall p (List.mem_cons_self _ _)).precededBy_tempPhase
      (ih (fun q hq => hall q (List.mem_cons_of_mem _ hq)))

theorem flatten_precededBy_pressPhase {ps : List (List Event)} (hall : ∀ p ∈ ps, Pass p)
    {l : List Event} (hl : ∀ acc, PrecededBy isReadingLine pressPhase acc l) :
    ∀ acc, PrecededBy isReadingLine pressPhase acc (ps.flatten ++ l) := by
  induction ps with
  | nil => simpa using hl
  | cons p ps ih =>
    rw [List.flatten_cons, List.append_assoc]
    exact (hall p (List.mem_cons_self _ _)).precededBy_pressPhase
      (ih (fun q hq => hall q (List.mem_cons_of_mem _ hq)))

theorem flatten_followedBy_nextPass {ps : List (List Event)} (hall : ∀ p ∈ ps, Pass p)
    {l : List Event}
    (hl : FollowedBy isFailedTempRequest nextPass (Event.i2cReleaseBus :: l)) :
    FollowedBy isFailedTempRequest nextPass (ps.flatten ++ Event.i2cReleaseBus :: l) := by
  induction ps with
  | nil => simpa using hl
  | cons p ps ih =>
    have hall' : ∀ q ∈ ps, Pass q := fun q hq => hall q (List.mem_cons_of_mem _ hq)
    rw [List.flatten_cons, List.append_assoc]
    exact (hall p (List.mem_cons_self _ _)).followedBy_nextPass
      (flatten_head_startsNextPass hall' l) (ih hall')

/-- C4: in the log of the calls the collaborators receive from
`cmd_barometer`, in the order received, (1) each pressure conversion request
comes immediately after a completed temperature phase: a temperature request
that returned a non-negative wait, the sleep for that wait and the read of the
temperature sample; (2) a temperature request that failed is immediately
followed by the temperature request of the next pass or by the release of the
bus, so no pressure request is issued in its pass; (3) each reading line comes
immediately after a completed pressure phase (request, sleep, read of the
pressure sample) and the computation of the values it prints. -/
theorem cmd_barometer_temp_before_press {σ : Type} (hw : Hw σ) (s : σ) :
    (∀ (pre post : List Event) (osr : Osr) (t2 : Int),
      (cmd_barometer_trace hw s) =
        pre ++ Event.ms5611_adc_start AdcSrc.MS5611_ADC_PRESS osr t2 :: post →
      ∃ (pre' : List Event) (t : Int) (raw_t : Nat), 0 ≤ t ∧
        pre = pre' ++
          [Event.ms5611_adc_start AdcSrc.MS5611_ADC_TEMP Osr.MS5611_OSR_4096 t,
           Event.chThdSleepMilliseconds (waitMs t),
           Event.ms5611_adc_read raw_t]) ∧
    (∀ (pre post : List Event) (osr : Osr) (t : Int),
      (cmd_barometer_trace hw s) =
        pre ++ Event.ms5611_adc_start AdcSrc.MS5611_ADC_TEMP osr t :: post → t < 0 →
      ∃ (b : Event) (post' : List Event), post = b :: post' ∧
        ((∃ osr' t', b = Event.ms5611_adc_start AdcSrc.MS5611_ADC_TEMP osr' t') ∨
          b = Event.i2cReleaseBus)) ∧
    (∀ (pre post : List Event) (args : List Int),
      (cmd_barometer_trace hw s) =
        pre ++ Event.chprintf "pressure: %u, temperature: %u\r\n" args :: post →
      ∃ (pre' : List Event) (t2 : Int) (raw_p raw_t press : Nat) (temp : Int), 0 ≤ t2 ∧
        args = [(press : Int), temp] ∧
        pre = pre' ++
          [Event.ms5611_adc_start AdcSrc.MS5611_ADC_PRESS Osr.MS5611_OSR_4096 t2,
           Event.chThdSleepMilliseconds (waitMs t2),
           Event.ms5611_adc_read raw_p,
           Event.ms5611_calc_press raw_p raw_t press temp]) := by
  have h1 : PrecededBy isPressRequest tempPhase [] (cmd_barometer_trace hw s) := by
    rcases cmd_barometer_shape hw s with ⟨c, code, flags, _, htr⟩ | ⟨c, ps, _, hall, htr⟩
    · rw [htr]
      unfold failedSession
      refine precededBy_cons (precededBy_skip ?_) (precededBy_cons (precededBy_skip ?_)
        (precededBy_cons (precededBy_skip ?_) (precededBy_cons (precededBy_skip ?_)
        (precededBy_cons (precededBy_skip ?_) (precededBy_cons (precededBy_skip ?_)
        (precededBy_cons (precededBy_skip ?_) (precededBy_cons (precededBy_skip ?_)
        precededBy_nil)))))))
      all_goals rintro ⟨_, _, h⟩; cases h
    · rw [htr, List.append_assoc]
      have htail : ∀ acc, PrecededBy isPressRequest tempPhase acc
          [Event.i2cReleaseBus, Event.i2cStop] := by
        intro acc
        refine precededBy_cons (precededBy_skip ?_) (precededBy_cons (precededBy_skip ?_)
          precededBy_nil)
        all_goals rintro ⟨_, _, h⟩; cases h
      have hbody := flatten_precededBy_tempPhase hall htail
      unfold sessionHeader
      refine precededBy_cons (precededBy_skip ?_) (precededBy_cons (precededBy_skip ?_)
        (precededBy_cons (precededBy_skip ?_) (precededBy_cons (precededBy_skip ?_)
        (precededBy_cons (precededBy_skip ?_) (precededBy_cons (precededBy_skip ?_)
        (hbody _))))))
      all_goals rintro ⟨_, _, h⟩; cases h
  have h2 : FollowedBy isFailedTempRequest nextPass (cmd_barometer_trace hw s) := by
    rcases cmd_barometer_shape hw s with ⟨c, code, flags, _, htr⟩ | ⟨c, ps, _, hall, htr⟩
    · rw [htr]
      unfold failedSession
      refine followedBy_cons (followedBy_skip ?_) (followedBy_cons (followedBy_skip ?_)
        (followedBy_cons (followedBy_skip ?_) (followedBy_cons (followedBy_skip ?_)
        (followedBy_cons (followedBy_skip ?_) (followedBy_cons (followedBy_skip ?_)
        (followedBy_cons (followedBy_skip ?_) (followedBy_cons (followedBy_skip ?_)
        followedBy_nil)))))))
      all_goals rintro ⟨_, _, h, _⟩; cases h
    · rw [htr, List.append_assoc]
      have htail : FollowedBy isFailedTempRequest nextPass
          [Event.i2cReleaseBus, Event.i2cStop] := by
        refine followedBy_cons (followedBy_skip ?_) (followedBy_cons (followedBy_skip ?_)
          followedBy_nil)
        all_goals rintro ⟨_, _, h, _⟩; cases h
      have hbody := flatten_followedBy_nextPass hall htail
      unfold sessionHeader
      refine followedBy_cons (followedBy_skip ?_) (followedBy_cons (followedBy_skip ?_)
        (followedBy_cons (followedBy_skip ?_) (followedBy_cons (followedBy_skip ?_)
        (followedBy_cons (followedBy_skip ?_) (followedBy_cons (followedBy_skip ?_)
        hbody)))))
      all_goals rintro ⟨_, _, h, _⟩; cases h
  have h3 : PrecededBy isReadingLine pressPhase [] (cmd_barometer_trace hw s) := by
    have hneq1 : ¬ isReadingLine (Event.chprintf "ms5611 init\r\n" []) := by
      rintro ⟨_, h⟩
      injection h with hf _
      exact absurd hf (by decide)
    have hneq2 : ∀ args, ¬ isReadingLine (Event.chprintf "ms5611 init succeeded\r\n" args) := by
      rintro _ ⟨_, h⟩
      injection h with hf _
      exact absurd hf (by decide)
    have hneq3 : ∀ args,
        ¬ isReadingLine (Event.chprintf "ms5611 init failed: %d, %u\r\n" args) := by
      rintro _ ⟨_, h⟩
      injection h with hf _
      exact absurd hf (by decide)
    rcases cmd_barometer_shape hw s with ⟨c, code, flags, _, htr⟩ | ⟨c, ps, _, hall, htr⟩
    · rw [htr]
      unfold failedSession
      refine precededBy_cons (precededBy_skip ?_) (precededBy_cons (precededBy_skip ?_)
        (precededBy_cons (precededBy_skip hneq1) (precededBy_cons (precededBy_skip ?_)
        (precededBy_cons (precededBy_skip ?_) (precededBy_cons (precededBy_skip (hneq3 _))
        (precededBy_cons (precededBy_skip ?_) (precededBy_cons (precededBy_skip ?_)
        precededBy_nil)))))))
      all_goals rintro ⟨_, h⟩; cases h
    · rw [htr, List.append_assoc]
      have htail : ∀ acc, PrecededBy isReadingLine pressPhase acc
          [Event.i2cReleaseBus, Event.i2cStop] := by
        intro acc
        refine precededBy_cons (precededBy_skip ?_) (precededBy_cons (precededBy_skip ?_)
          precededBy_nil)
        all_goals rintro ⟨_, h⟩; cases h
      have hbody := flatten_precededBy_pressPhase hall htail
      unfold sessionHeader
      refine precededBy_cons (precededBy_skip ?_) (precededBy_cons (precededBy_skip ?_)
        (precededBy_cons (precededBy_skip hneq1) (precededBy_cons (precededBy_skip ?_)
        (precededBy_cons (precededBy_skip (hneq2 _)) (precededBy_cons (precededBy_skip ?_)
        (hbody _))))))
      all_goals rintro ⟨_, h⟩; cases h
  refine ⟨?_, ?_, ?_⟩
  · intro pre post osr t2 hocc
    obtain ⟨pre', blk, hp, t, raw_t, ht, hblk⟩ := h1 pre _ post hocc ⟨osr, t2, rfl⟩
    subst hblk
    exact ⟨pre', t, raw_t, ht, by simpa using hp⟩
  · intro pre post osr t hocc ht
    obtain ⟨blk, post', hp, b, hb, hs⟩ := h2 pre _ post hocc ⟨osr, t, rfl, ht⟩
    subst hb
    exact ⟨b, post', by simpa using hp, hs⟩
  · intro pre post args hocc
    obtain ⟨pre', blk, hp, t2, raw_p, raw_t, press, temp, ht2, he, hblk⟩ :=
      h3 pre _ post hocc ⟨args, rfl⟩
    subst hblk
    injection he with _ hargs
    exact ⟨pre', t2, raw_p, raw_t, press, temp, ht2, hargs, by simpa using hp⟩

/-- Witness for C4 on the flaky sensor: the second pass is a temperature phase
and a failed pressure request, after which the third pass starts; the trace
also holds a failed temperature request; the ordering (1) holds for it. -/
theorem cmd_barometer_temp_before_press_witness :
    ((cmd_barometer_trace hwFlaky 0).drop 15).take 5 =
      [Event.ms5611_adc_start AdcSrc.MS5611_ADC_TEMP Osr.MS5611_OSR_4096 9040,
       Event.chThdSleepMilliseconds 10,
       Event.ms5611_adc_read 8000003,
       Event.ms5611_adc_start AdcSrc.MS5611_ADC_PRESS Osr.MS5611_OSR_4096 (-1),
       Event.ms5611_adc_start AdcSrc.MS5611_ADC_TEMP Osr.MS5611_OSR_4096 9040] ∧
    (cmd_barometer_trace hwFlaky 0).countP Event.isTempRequest = 50 ∧
    Event.ms5611_adc_start AdcSrc.MS5611_ADC_TEMP Osr.MS5611_OSR_4096 (-1) ∈
      (cmd_barometer_trace hwFlaky 0) ∧
    Event.ms5611_adc_start AdcSrc.MS5611_ADC_PRESS Osr.MS5611_OSR_4096 9040 ∈
      (cmd_barometer_trace hwFlaky 0) ∧
    ∀ (pre post : List Event) (osr : Osr) (t2 : Int),
      (cmd_barometer_trace hwFlaky 0) =
        pre ++ Event.ms5611_adc_start AdcSrc.MS5611_ADC_PRESS osr t2 :: post →
      ∃ (pre' : List Event) (t : Int) (raw_t : Nat), 0 ≤ t ∧
        pre = pre' ++
          [Event.ms5611_adc_start AdcSrc.MS5611_ADC_TEMP Osr.MS5611_OSR_4096 t,
           Event.chThdSleepMilliseconds (waitMs t),
           Event.ms5611_adc_read raw_t] :=
  ⟨by decide, by decide, by decide, by decide,
    (cmd_barometer_temp_before_press hwFlaky 0).1⟩

/-! ## Readings of a session (C3) -/

theorem Pass.countP_isTempRequest {p : List Event} (hp : Pass p) :
    p.countP Event.isTempRequest = 1 := by
  cases hp <;> simp [List.countP_cons, Event.isTempRequest]

theorem Pass.readings_length_le {p : List Event} (hp : Pass p) :
    (readings p).length ≤ 1 := by
  cases hp <;> simp [readings, Event.reading]

theorem Pass.of_failed_request {p : List Event} (hp : Pass p) (src : AdcSrc) (osr : Osr)
    (t : Int) (hmem : Event.ms5611_adc_start src osr t ∈ p) (ht : t < 0) :
    readings p = [] ∧ output p = [] := by
  cases hp with
  | tempFailed t ht => simp [readings, Event.reading, output]
  | pressFailed t raw_t t2 ht ht2 => simp [readings, Event.reading, output]
  | reading t raw_t t2 raw_p press temp ht1 ht2 =>
    exfalso
    simp only [List.mem_cons, Event.ms5611_adc_start.injEq, List.mem_singleton] at hmem
    rcases hmem with ⟨_, _, h⟩ | h | h | ⟨_, _, h⟩ | h | h | h | h | h
    · omega
    · cases h
    · cases h
    · omega
    · cases h
    · cases h
    · cases h
    · cases h
    · rcases h with h | h
      · cases h
      · simp at h

theorem Pass.of_no_failed_request {p : List Event} (hp : Pass p)
    (hok : ∀ src osr t, Event.ms5611_adc_start src osr t ∈ p → 0 ≤ t) :
    ∃ (t : Int) (raw_t : Nat) (t2 : Int) (raw_p press : Nat) (temp : Int),
      p = [Event.ms5611_adc_start AdcSrc.MS5611_ADC_TEMP Osr.MS5611_OSR_4096 t,
           Event.chThdSleepMilliseconds (waitMs t),
           Event.ms5611_adc_read raw_t,
           Event.ms5611_adc_start AdcSrc.MS5611_ADC_PRESS Osr.MS5611_OSR_4096 t2,
           Event.chThdSleepMilliseconds (waitMs t2),
           Event.ms5611_adc_read raw_p,
           Event.ms5611_calc_press raw_p raw_t press temp,
           Event.chprintf "pressure: %u, temperature: %u\r\n" [(press : Int), temp],
           Event.chThdSleepMilliseconds 100] ∧
      readings p = [((press : Int), temp)] := by
  cases hp with
  | tempFailed t ht =>
    have := hok _ _ t (List.mem_singleton.mpr rfl)
    omega
  | pressFailed t raw_t t2 ht ht2 =>
    have := hok AdcSrc.MS5611_ADC_PRESS Osr.MS5611_OSR_4096 t2 (by simp)
    omega
  | reading t raw_t t2 raw_p press temp ht1 ht2 =>
    exact ⟨t, raw_t, t2, raw_p, press, temp, rfl, by simp [readings, Event.reading]⟩

theorem flatten_countP_isTempRequest {ps : List (List Event)} (hall : ∀ p ∈ ps, Pass p) :
    ps.flatten.countP Event.isTempRequest = ps.length := by
  induction ps with
  | nil => rfl
  | cons p ps ih =>
    rw [List.flatten_cons, List.countP_append,
      (hall p (List.mem_cons_self _ _)).countP_isTempRequest,
      ih (fun q hq => hall q (List.mem_cons_of_mem _ hq)), List.length_cons]
    omega

theorem flatten_readings_length_le {ps : List (List Event)} (hall : ∀ p ∈ ps, Pass p) :
    (readings ps.flatten).length ≤ ps.length := by
  induction ps with
  | nil => simp [readings]
  | cons p ps ih =>
    have h1 := (hall p (List.mem_cons_self _ _)).readings_length_le
    have h2 := ih (fun q hq => hall q (List.mem_cons_of_mem _ hq))
    simp only [readings, List.flatten_cons, List.filterMap_append, List.length_append,
      List.length_cons] at h1 h2 ⊢
    omega

theorem readings_session (configured : Bool) (ps : List (List Event)) :
    readings (sessionHeader configured ++ ps.flatten ++
      [Event.i2cReleaseBus, Event.i2cStop]) = (ps.map readings).flatten := by
  have hr : (fun l : List Event => List.filterMap Event.reading l) = readings := rfl
  simp [readings, sessionHeader, List.filterMap_append, Event.reading, hr]

theorem readings_passEvents {σ : Type} (hw : Hw σ) (st : σ) :
    readings (passEvents hw st) = (passReading hw st).toList := by
  unfold passEvents passReading
  dsimp only
  split
  · simp [readings, Event.reading]
  · split
    · simp [readings, Event.reading]
    · simp [readings, Event.reading]

theorem readings_passes {σ : Type} (hw : Hw σ) (sts : List σ) :
    ((sts.map (passEvents hw)).map readings).flatten = sts.filterMap (passReading hw) := by
  induction sts with
  | nil => rfl
  | cons st sts ih =>
    simp only [List.map_cons, List.flatten_cons, ih, readings_passEvents, List.filterMap_cons]
    cases passReading hw st <;> simp

/-- C3: when device init succeeds, the calls the collaborators receive are the
header, exactly 50 passes through the loop body (each with exactly one
temperature request) and the teardown; pass `i` starts in the state pass
`i - 1` left and makes the calls of `passEvents` there.  The readings emitted
are, in pass order, those of `passReading`: none for a pass whose temperature
or pressure request returns a negative wait, else what the driver's
`ms5611_calc_press` returns for the two samples the driver's `ms5611_adc_read`
gave in that same pass.  A pass with a failed request emits no reading and
prints nothing.  A pass whose requests all returned a non-negative wait has
the full form temperature phase, pressure phase, `ms5611_calc_press(raw_p,
raw_t)` and a reading line with exactly the values computed.  Hence at most 50
readings are emitted. -/
theorem cmd_barometer_readings {σ : Type} (hw : Hw σ) (s : σ)
    (hinit : Event.ms5611_i2c_init 0 0 ∈ (cmd_barometer_trace hw s)) :
    ∃ (configured : Bool) (ps : List (List Event)),
      configured = (hw.i2cStart s i2c_cfg).1 ∧
      ps = (passStates hw 50 (samplingStart hw s)).map (passEvents hw) ∧
      (cmd_barometer_trace hw s) =
        sessionHeader configured ++ ps.flatten ++ [Event.i2cReleaseBus, Event.i2cStop] ∧
      cmd_barometer hw s =
        hw.i2cStop (hw.i2cReleaseBus (barometerLoop hw 50 (samplingStart hw s))) ∧
      ps.length = 50 ∧
      (cmd_barometer_trace hw s).countP Event.isTempRequest = 50 ∧
      (∀ p ∈ ps, Pass p ∧ p.countP Event.isTempRequest = 1) ∧
      readings (cmd_barometer_trace hw s) = (ps.map readings).flatten ∧
      readings (cmd_barometer_trace hw s) =
        (passStates hw 50 (samplingStart hw s)).filterMap (passReading hw) ∧
      (∀ p ∈ ps, ∀ src osr t, Event.ms5611_adc_start src osr t ∈ p → t < 0 →
        readings p = [] ∧ output p = []) ∧
      (∀ p ∈ ps, (∀ src osr t, Event.ms5611_adc_start src osr t ∈ p → 0 ≤ t) →
        ∃ (t : Int) (raw_t : Nat) (t2 : Int) (raw_p press : Nat) (temp : Int),
          p = [Event.ms5611_adc_start AdcSrc.MS5611_ADC_TEMP Osr.MS5611_OSR_4096 t,
               Event.chThdSleepMilliseconds (waitMs t),
               Event.ms5611_adc_read raw_t,
               Event.ms5611_adc_start AdcSrc.MS5611_ADC_PRESS Osr.MS5611_OSR_4096 t2,
               Event.chThdSleepMilliseconds (waitMs t2),
               Event.ms5611_adc_read raw_p,
               Event.ms5611_calc_press raw_p raw_t press temp,
               Event.chprintf "pressure: %u, temperature: %u\r\n" [(press : Int), temp],
               Event.chThdSleepMilliseconds 100] ∧
          readings p = [((press : Int), temp)]) ∧
      (readings (cmd_barometer_trace hw s)).length ≤ 50 := by
  have htr := cmd_barometer_trace_eq hw s
  by_cases hp : (probe hw s).1 ≠ 0
  · exfalso
    rw [if_pos hp] at htr
    rw [htr] at hinit
    have : (0 : Int) = (probe hw s).1 := by simpa [failedSession] using hinit
    exact hp this.symm
  · rw [if_neg hp] at htr
    have hlen : ((passStates hw 50 (samplingStart hw s)).map (passEvents hw)).length = 50 := by
      simp [passStates_length]
    have hall : ∀ p ∈ (passStates hw 50 (samplingStart hw s)).map (passEvents hw), Pass p := by
      intro p hmem
      obtain ⟨st, _, rfl⟩ := List.mem_map.mp hmem
      exact passEvents_pass hw st
    have hread : readings (cmd_barometer_trace hw s) =
        (((passStates hw 50 (samplingStart hw s)).map (passEvents hw)).map readings).flatten := by
      rw [htr]; exact readings_session _ _
    refine ⟨_, _, rfl, rfl, htr, ?_, hlen, ?_, ?_, hread, ?_, ?_, ?_, ?_⟩
    · unfold cmd_barometer
      simp only [probe, samplingStart] at hp ⊢
      rw [if_neg hp]
    · rw [htr, List.countP_append, List.countP_append, flatten_countP_isTempRequest hall, hlen]
      simp [sessionHeader, List.countP_cons, Event.isTempRequest]
    · exact fun p hmem => ⟨hall p hmem, (hall p hmem).countP_isTempRequest⟩
    · rw [hread, readings_passes]
    · exact fun p hmem src osr t hm ht => (hall p hmem).of_failed_request src osr t hm ht
    · exact fun p hmem hok => (hall p hmem).of_no_failed_request hok
    · rw [htr, readings_session]
      have := flatten_readings_length_le hall
      simp only [readings, List.filterMap_flatten] at this
      simpa [readings, hlen] using this

/-- Witness for C3 on the flaky sensor: init succeeds, the session has 50
passes and emits 33 readings; the first is computed from the samples 8000001
and 8000002 read back in the first pass. -/
theorem cmd_barometer_readings_witness :
    Event.ms5611_i2c_init 0 0 ∈ (cmd_barometer_trace hwFlaky 0) ∧
    (readings (cmd_barometer_trace hwFlaky 0)).length = 33 ∧
    (readings (cmd_barometer_trace hwFlaky 0)).take 3 =
      [(16000003, 2000), (16000011, 2000), (16000015, 2000)] ∧
    ((cmd_barometer_trace hwFlaky 0).drop 6).take 9 =
      [Event.ms5611_adc_start AdcSrc.MS5611_ADC_TEMP Osr.MS5611_OSR_4096 9040,
       Event.chThdSleepMilliseconds 10,
       Event.ms5611_adc_read 8000001,
       Event.ms5611_adc_start AdcSrc.MS5611_ADC_PRESS Osr.MS5611_OSR_4096 9040,
       Event.chThdSleepMilliseconds 10,
       Event.ms5611_adc_read 8000002,
       Event.ms5611_calc_press 8000002 8000001 16000003 2000,
       Event.chprintf "pressure: %u, temperature: %u\r\n" [16000003, 2000],
       Event.chThdSleepMilliseconds 100] ∧
    ∃ (ps : List (List Event)),
      ps = (passStates hwFlaky 50 (samplingStart hwFlaky 0)).map (passEvents hwFlaky) ∧
      (cmd_barometer_trace hwFlaky 0) =
        sessionHeader true ++ ps.flatten ++ [Event.i2cReleaseBus, Event.i2cStop] ∧
      ps.length = 50 ∧
      readings (cmd_barometer_trace hwFlaky 0) =
        (passStates hwFlaky 50 (samplingStart hwFlaky 0)).filterMap (passReading hwFlaky) ∧
      (readings (cmd_barometer_trace hwFlaky 0)).length ≤ 50 := by
  refine ⟨by decide, by decide, by decide, by decide, ?_⟩
  obtain ⟨c, ps, hc, hps, h1, _, h2, _, _, _, h5, _, _, h8⟩ :=
    cmd_barometer_readings hwFlaky 0 (by decide)
  subst hc
  exact ⟨ps, hps, h1, h2, h5, h8⟩

/-! ## The reading line (C9) -/

/-- The text of a reading line: both values go through the conversion `%u`. -/
theorem reading_line_text (press temp : Int) :
    chprintfText "pressure: %u, temperature: %u\r\n" [press, temp] =
      String.mk ("pressure: ".toList ++ (fmtU press).toList ++
        ", temperature: ".toList ++ (fmtU temp).toList ++ "\r\n".toList) := by
  simp [chprintfText, chprintfChars]

/-- C9, evaluated on the cold sensor: the first reading is `(101325, -523)` and
the line printed for it shows the temperature as `4294966773`; no line of the
session shows `-523`. -/
theorem cmd_barometer_negative_temperature_line :
    (readings (cmd_barometer_trace hwCold ())).head? = some (101325, -523) ∧
    (output (cmd_barometer_trace hwCold ())).take 3 =
      ["ms5611 init\r\n", "ms5611 init succeeded\r\n",
       "pressure: 101325, temperature: 4294966773\r\n"] ∧
    "pressure: 101325, temperature: -523\r\n" ∉ output (cmd_barometer_trace hwCold ()) := by
  decide

/-! ## Start of the transport (C10) -/

theorem barometerLoop_withStartResult {σ : Type} (hw : Hw σ) (b : Bool) :
    ∀ (n : Nat) (s : σ), barometerLoop (hw.withStartResult b) n s = barometerLoop hw n s := by
  intro n
  induction n with
  | zero => intro s; rfl
  | succ n ih =>
    intro s
    have hb : barometerBody (hw.withStartResult b) s = barometerBody hw s := rfl
    simp only [barometerLoop, hb, ih]

theorem passStates_withStartResult {σ : Type} (hw : Hw σ) (b : Bool) :
    ∀ (n : Nat) (s : σ), passStates (hw.withStartResult b) n s = passStates hw n s := by
  intro n
  induction n with
  | zero => intro s; rfl
  | succ n ih =>
    intro s
    have hb : barometerBody (hw.withStartResult b) s = barometerBody hw s := rfl
    simp only [passStates, hb, ih]

/-- C10, refuted as stated: with a transport that `i2cStart` cannot configure,
`cmd_barometer` still acquires the bus, issues device transactions and emits
readings. -/
theorem cmd_barometer_start_failure_goes_on :
    Event.i2cStart i2c_cfg false ∈ (cmd_barometer_trace hwNoTransport 0) ∧
    Event.i2cAcquireBus ∈ (cmd_barometer_trace hwNoTransport 0) ∧
    Event.ms5611_i2c_init 0 0 ∈ (cmd_barometer_trace hwNoTransport 0) ∧
    (cmd_barometer_trace hwNoTransport 0).any Event.isDeviceTransaction = true ∧
    (readings (cmd_barometer_trace hwNoTransport 0)).length = 50 := by
  decide

/-- C10, amended: `cmd_barometer` starts the transport with `i2c_cfg` (400 kHz,
fast-mode duty cycle) and does not look at the outcome: whatever it is, the
next calls are `i2cAcquireBus`, the banner and `ms5611_i2c_init`, and the
calls after `i2cStart` and the state left are the same for both outcomes. -/
theorem cmd_barometer_start_unchecked {σ : Type} (hw : Hw σ) (s : σ) (b : Bool) :
    i2c_cfg.clock_speed = 400000 ∧
    i2c_cfg.duty_cycle = I2CDutyCycle.FAST_DUTY_CYCLE_2 ∧
    (∃ (code : Int) (rest : List Event),
      (cmd_barometer_trace (hw.withStartResult b) s) =
        Event.i2cStart i2c_cfg b :: Event.i2cAcquireBus ::
          Event.chprintf "ms5611 init\r\n" [] :: Event.ms5611_i2c_init 0 code :: rest) ∧
    (cmd_barometer_trace (hw.withStartResult b) s).tail = (cmd_barometer_trace hw s).tail ∧
    cmd_barometer (hw.withStartResult b) s = cmd_barometer hw s := by
  have hp : probe (hw.withStartResult b) s = probe hw s := rfl
  have hs : samplingStart (hw.withStartResult b) s = samplingStart hw s := rfl
  have he : passEvents (hw.withStartResult b) = passEvents hw := rfl
  have hg : (hw.withStartResult b).i2cGetErrors = hw.i2cGetErrors := rfl
  have hb : ((hw.withStartResult b).i2cStart s i2c_cfg).1 = b := rfl
  refine ⟨rfl, rfl, ?_, ?_, ?_⟩
  · rw [cmd_barometer_trace_eq, hb]
    split
    · exact ⟨_, _, rfl⟩
    · exact ⟨0, _, rfl⟩
  · rw [cmd_barometer_trace_eq, cmd_barometer_trace_eq, hp, hs, he, hg,
      passStates_withStartResult]
    split <;> rfl
  · unfold cmd_barometer
    dsimp only
    rw [barometerLoop_withStartResult]
    simp only [Hw.withStartResult]

/-! ## `cmd_parameter_set` (C7, C8) -/

/-- The command changes the store only through `parameter_scalar_set`. -/
theorem cmd_parameter_set_store_unchanged {Ref F : Type} [DecidableEq Ref]
    (lib : ParamLib Ref F) (parameters : Ref → parameter_t F) (argv : List String)
    (hno : ∀ p v, ParamEvent.parameter_scalar_set p v ∉
      (cmd_parameter_set lib parameters argv).1) :
    (cmd_parameter_set lib parameters argv).2 = parameters := by
  unfold cmd_parameter_set at hno ⊢
  split
  · rfl
  · dsimp only at hno ⊢
    split
    · rfl
    · rename_i e _
      split
      · rename_i hlen _ hfind hs
        exfalso
        simp only [hlen, dite_false, hfind, hs, if_true] at hno
        exact hno e (lib.strtof argv[1]) (by simp)
      · rfl

/-- C7: `cmd_parameter_set` leaves the store as it is on a user-input error.
(1) With fewer than two arguments it only prints the usage line: no
`parameter_find`, no `parameter_scalar_set`.  (2) When `parameter_find` returns
`NULL` for `argv[0]` it prints the not-found message.  (3) When the entry found
has a type other than `_PARAM_TYPE_SCALAR` it prints the unsupported-type
message with that type.  In the three cases the trace is exactly the calls
named and the store returned is the store given.  (4) For every argument
vector, a run that does not call `parameter_scalar_set` returns the store
given. -/
theorem cmd_parameter_set_errors {Ref F : Type} [DecidableEq Ref]
    (lib : ParamLib Ref F) (parameters : Ref → parameter_t F) :
    (∀ argv : List String, argv.length < 2 →
      cmd_parameter_set lib parameters argv =
        ([ParamEvent.chprintf "usage: parameter_set name value\n" []], parameters)) ∧
    (∀ (name value : String) (rest : List String),
      lib.parameter_find parameters name = none →
      cmd_parameter_set lib parameters (name :: value :: rest) =
        ([ParamEvent.parameter_find name none,
          ParamEvent.chprintf "parameter doesn't exist\n" []], parameters)) ∧
    (∀ (name value : String) (rest : List String) (e : Ref),
      lib.parameter_find parameters name = some e →
      (parameters e).type ≠ lib.PARAM_TYPE_SCALAR →
      cmd_parameter_set lib parameters (name :: value :: rest) =
        ([ParamEvent.parameter_find name (some e),
          ParamEvent.chprintf "unsupported type %d\n" [(parameters e).type]], parameters)) ∧
    (∀ argv : List String,
      (∀ p v, ParamEvent.parameter_scalar_set p v ∉
        (cmd_parameter_set lib parameters argv).1) →
      (cmd_parameter_set lib parameters argv).2 = parameters) := by
  refine ⟨?_, ?_, ?_, ?_⟩
  · intro argv hlen
    simp [cmd_parameter_set, hlen]
  · intro name value rest hfind
    simp [cmd_parameter_set, hfind]
  · intro name value rest e hfind htype
    simp [cmd_parameter_set, hfind, htype]
  · exact fun argv hno => cmd_parameter_set_store_unchanged lib parameters argv hno

/-- Witness for C7: one argument; a name that is missing; a name whose entry
is not a scalar. -/
theorem cmd_parameter_set_errors_witness :
    cmd_parameter_set libExample storeExample ["x"] =
      ([ParamEvent.chprintf "usage: parameter_set name value\n" []], storeExample) ∧
    cmd_parameter_set libExample storeExample ["missing", "1.0"] =
      ([ParamEvent.parameter_find "missing" none,
        ParamEvent.chprintf "parameter doesn't exist\n" []], storeExample) ∧
    cmd_parameter_set libExample storeExample ["existing_nonscalar", "1.0"] =
      ([ParamEvent.parameter_find "existing_nonscalar" (some 1),
        ParamEvent.chprintf "unsupported type %d\n" [2]], storeExample) :=
  ⟨(cmd_parameter_set_errors libExample storeExample).1 ["x"] (by decide),
   (cmd_parameter_set_errors libExample storeExample).2.1 "missing" "1.0" [] (by decide),
   (cmd_parameter_set_errors libExample storeExample).2.2.1 "existing_nonscalar" "1.0" [] 1
     (by decide) (by decide)⟩

/-- C8: when `argv[0]` resolves to an entry `e` of type `_PARAM_TYPE_SCALAR`,
`cmd_parameter_set` with arguments `name value ...` makes exactly two calls:
`parameter_find` for the name, then `parameter_scalar_set` on `e` with
`strtof(value)`.  Afterwards the value of `e` is `strtof(value)` and its type
is unchanged, every other entry is as before, and nothing is printed. -/
theorem cmd_parameter_set_scalar {Ref F : Type} [DecidableEq Ref]
    (lib : ParamLib Ref F) (parameters : Ref → parameter_t F)
    (name value : String) (rest : List String) (e : Ref)
    (hfind : lib.parameter_find parameters name = some e)
    (htype : (parameters e).type = lib.PARAM_TYPE_SCALAR) :
    (cmd_parameter_set lib parameters (name :: value :: rest)).1 =
      [ParamEvent.parameter_find name (some e),
       ParamEvent.parameter_scalar_set e (lib.strtof value)] ∧
    ((cmd_parameter_set lib parameters (name :: value :: rest)).2 e).value =
      lib.strtof value ∧
    ((cmd_parameter_set lib parameters (name :: value :: rest)).2 e).type =
      (parameters e).type ∧
    (∀ q, q ≠ e →
      (cmd_parameter_set lib parameters (name :: value :: rest)).2 q = parameters q) ∧
    (∀ fmt args, ParamEvent.chprintf fmt args ∉
      (cmd_parameter_set lib parameters (name :: value :: rest)).1) := by
  have h : cmd_parameter_set lib parameters (name :: value :: rest) =
      ([ParamEvent.parameter_find name (some e),
        ParamEvent.parameter_scalar_set e (lib.strtof value)],
       parameter_scalar_set parameters e (lib.strtof value)) := by
    simp [cmd_parameter_set, hfind, htype]
  rw [h]
  refine ⟨rfl, by simp [parameter_scalar_set], by simp [parameter_scalar_set], ?_, ?_⟩
  · intro q hq
    simp [parameter_scalar_set, hq]
  · intro fmt args
    simp

/-- Witness for C8: `parameter_set existing_scalar 3.25` on the example store,
where `strtof` gives 13/4 for the text "3.25". -/
theorem cmd_parameter_set_scalar_witness :
    libExample.parameter_find storeExample "existing_scalar" = some 0 ∧
    (storeExample 0).type = libExample.PARAM_TYPE_SCALAR ∧
    libExample.strtof "3.25" = 13 / 4 ∧
    (cmd_parameter_set libExample storeExample ["existing_scalar", "3.25"]).1 =
      [ParamEvent.parameter_find "existing_scalar" (some 0),
       ParamEvent.parameter_scalar_set 0 (libExample.strtof "3.25")] ∧
    ((cmd_parameter_set libExample storeExample ["existing_scalar", "3.25"]).2 0).value =
      libExample.strtof "3.25" ∧
    ((cmd_parameter_set libExample storeExample ["existing_scalar", "3.25"]).2 0).type =
      (storeExample 0).type ∧
    (∀ q, q ≠ 0 →
      (cmd_parameter_set libExample storeExample ["existing_scalar", "3.25"]).2 q =
        storeExample q) ∧
    (∀ fmt args, ParamEvent.chprintf fmt args ∉
      (cmd_parameter_set libExample storeExample ["existing_scalar", "3.25"]).1) :=
  ⟨by decide, by decide, by simp [libExample],
    cmd_parameter_set_scalar libExample storeExample "existing_scalar" "3.25" [] 0
      (by decide) (by decide)⟩

end ShellCmds
